import Mathlib

/-!
# A2A x402 Gateway — verification of the payment gateway server

Shallow embedding of the gateway server (`server v2`, the A2A/x402 agent
gateway): the request parser, payment-requirements builder, SIWx session
store, task store, payment event log, snapshot loader, the JSON-RPC payment
state machine (`message/send`, `tasks/get`, `tasks/cancel`) and the REST
x402 routes.  Pure data is modelled directly; the external skill executors
(screenshot / markdown / Gemini calls over HTTP) are out-of-scope
collaborators per the specification and are modelled as an oracle outcome
supplied to each request; wall-clock timestamps and freshly generated UUIDs
are likewise supplied as oracle inputs.
-/

namespace X402

/-! ## Character/string helpers (JS `includes`, `startsWith`, `trim`) -/

/-- JS whitespace class `\s` restricted to the ASCII range (space, tab,
line feed, carriage return, vertical tab, form feed). -/
def wsChar (c : Char) : Bool :=
  c = ' ' || c = '\t' || c = '\n' || c = '\r' || c = '\x0b' || c = '\x0c'

/-- JS regex line terminators (a `.` in a JS regex without the `s` flag does
not match these). -/
def lineTerm (c : Char) : Bool := c = '\n' || c = '\r'

/-- Does `hay` start with `needle`? (JS `String.prototype.startsWith`). -/
def listStarts : List Char → List Char → Bool
  | _, [] => true
  | [], _ :: _ => false
  | c :: cs, d :: ds => c = d && listStarts cs ds

/-- Does `hay` contain `needle` as a contiguous substring?
(JS `String.prototype.includes`). -/
def listHasSub (hay needle : List Char) : Bool :=
  match hay with
  | [] => needle.isEmpty
  | _ :: t => listStarts hay needle || listHasSub t needle

/-- Lowercase every character (JS `String.prototype.toLowerCase`,
ASCII-faithful). -/
def lowerL (s : List Char) : List Char := s.map Char.toLower

/-- JS `String.prototype.trim`: drop leading and trailing whitespace. -/
def trimJS (s : List Char) : List Char :=
  ((s.dropWhile wsChar).reverse.dropWhile wsChar).reverse

/-- JS string-truthiness fallback `a || b` (empty string is falsy). -/
def jsOrStr (a : Option String) (b : String) : String :=
  match a with
  | some s => if s = "" then b else s
  | none => b

/-- JS `a || b` for two optional strings: `a` wins when present and
non-empty. -/
def jsOrOpt (a b : Option String) : Option String :=
  match a with
  | some s => if s = "" then b else some s
  | none => b

/-- Is an optional string JS-truthy (present and non-empty)? -/
def jsTruthy : Option String → Bool
  | some s => s ≠ ""
  | none => false

/-! ## The cue-stripping regexes of `parseRequest`

The source strips a leading cue with
`text.replace(/^.*?(?:tok1|tok2|...).*?:\s*/i, '').trim() || text`.
Because the regex is anchored and `.` does not cross line terminators, the
match (when it exists) runs from the start of the text up to the first
colon that follows the earliest token occurrence on the first line, plus
the greedy whitespace run after that colon.  A token is a list of
character predicates so that the `ai\s` alternative (literal `ai` followed
by one whitespace character) is expressible. -/

/-- Does `hay` start with the token (a list of character predicates)? -/
def startsTok : List Char → List (Char → Bool) → Bool
  | _, [] => true
  | [], _ :: _ => false
  | c :: cs, m :: ms => m c && startsTok cs ms

/-- Earliest position (with the matched token's length) where one of the
tokens matches, scanning only up to the first line terminator — the
anchored lazy `^.*?` of the JS regex cannot cross one. -/
def findTok (toks : List (List (Char → Bool))) : List Char → Option (Nat × Nat)
  | [] => none
  | c :: cs =>
    match toks.find? (fun t => startsTok (c :: cs) t) with
    | some t => some (0, t.length)
    | none =>
      if lineTerm c then none
      else (findTok toks cs).map (fun p => (p.1 + 1, p.2))

/-- Index of the first `':'`, scanning only up to the first line terminator
(the lazy `.*?` between token and colon cannot cross one). -/
def colonFrom : List Char → Option Nat
  | [] => none
  | c :: cs =>
    if c = ':' then some 0
    else if lineTerm c then none
    else (colonFrom cs).map (· + 1)

/-- Length of the leading whitespace run (the greedy `\s*` after the colon;
this one may cross line terminators). -/
def wsRun : List Char → Nat
  | [] => 0
  | c :: cs => if wsChar c then wsRun cs + 1 else 0

/-- End index (exclusive) of the match of `^.*?(?:tok…).*?:\s*` on the
lowercased text, or `none` when the regex does not match. -/
def regexCut (toks : List (List (Char → Bool))) (low : List Char) : Option Nat :=
  match findTok toks low with
  | none => none
  | some (p, len) =>
    match colonFrom (low.drop (p + len)) with
    | none => none
    | some k =>
      let cEnd := p + len + k + 1
      some (cEnd + wsRun (low.drop cEnd))

/-- `text.replace(/^.*?(?:tok…).*?:\s*/i, '').trim() || text`. -/
def stripCue (toks : List (List (Char → Bool))) (text : List Char) : List Char :=
  let low := lowerL text
  let replaced :=
    match regexCut toks low with
    | some n => text.drop n
    | none => text
  let trimmed := trimJS replaced
  if trimmed.isEmpty then text else trimmed

/-- Literal token: each character compared case-insensitively (the regexes
carry the `i` flag and we match on the lowercased text). -/
def litTok (s : String) : List (Char → Bool) := s.data.map (fun c d => d = c)

/-- The `(?:analyze|analysis|summarize|summary|gemini|ai\s)` token list. -/
def aiToks : List (List (Char → Bool)) :=
  [litTok "analyze", litTok "analysis", litTok "summarize", litTok "summary",
   litTok "gemini", litTok "ai" ++ [wsChar]]

/-- The `(?:pdf|convert)` token list. -/
def pdfToks : List (List (Char → Bool)) := [litTok "pdf", litTok "convert"]

/-- The `(?:html|convert)` token list. -/
def htmlToks : List (List (Char → Bool)) := [litTok "html", litTok "convert"]

/-! ## `parseRequest` -/

/-- The parsed request object `{ skill, content? / markdown? / url? }`
returned by `parseRequest` (and cached on task metadata as
`x402.originalRequest`). -/
structure ParsedRequest where
  skill : String
  content : Option String := none
  markdown : Option String := none
  url : Option String := none
deriving DecidableEq, Repr

/-- First match of `/https?:\/\/[^\s]+/` (case-sensitive, on the raw text):
at the current position the scheme `https://` (preferred, greedy `s?`) or
`http://` must appear, followed by at least one non-whitespace character;
the URL is the scheme plus the maximal non-whitespace run. -/
def findUrl : List Char → Option (List Char)
  | [] => none
  | c :: cs =>
    let t := c :: cs
    if listStarts t "https://".data then
      let rest := t.drop 8
      let body := rest.takeWhile (fun d => !wsChar d)
      if body.isEmpty then findUrl cs else some ("https://".data ++ body)
    else if listStarts t "http://".data then
      let rest := t.drop 7
      let body := rest.takeWhile (fun d => !wsChar d)
      if body.isEmpty then findUrl cs else some ("http://".data ++ body)
    else findUrl cs

/-- The six case-insensitive cue tests of the first classification rule:
`lower.includes('analyze') || … || lower.includes('ai ')`. -/
def aiCue (lower : List Char) : Bool :=
  listHasSub lower "analyze".data || listHasSub lower "analysis".data ||
  listHasSub lower "summarize".data || listHasSub lower "summary".data ||
  listHasSub lower "gemini".data || listHasSub lower "ai ".data

/-- `parseRequest(text)`: keyword/URL classification, rules applied in
order with first match winning. -/
def parseRequest (text : List Char) : ParsedRequest :=
  let lower := lowerL text
  if aiCue lower then
    { skill := "ai-analysis", content := some ⟨stripCue aiToks text⟩ }
  else if listHasSub lower "pdf".data && !listStarts lower "http".data then
    { skill := "markdown-to-pdf", markdown := some ⟨stripCue pdfToks text⟩ }
  else if listHasSub lower "html".data && !listStarts lower "http".data then
    { skill := "markdown-to-html", markdown := some ⟨stripCue htmlToks text⟩ }
  else
    match findUrl text with
    | some url => { skill := "screenshot", url := some ⟨url⟩ }
    | none => { skill := "markdown-to-html", markdown := some ⟨text⟩ }

/-! ## Network catalogue and payment requirements -/

/-- One entry of the static `NETWORKS` catalogue. -/
structure Network where
  key : String
  caip2 : String
  name : String
  chainId : Nat
  usdc : String
  gasless : Bool := false
  rpc : String
  finality : Option String := none
  privacy : Option String := none
deriving DecidableEq, Repr

def WALLET_ADDRESS : String := "0x7483a9F237cf8043704D6b17DA31c12BfFF860DD"
def BASE_USDC : String := "0x833589fCD6eDb6E08f4c7C32D4f71b54bdA02913"
def SKALE_USDC : String := "0x5F795bb52dAC3085f578f4877D450e2929D2F13d"
def ARBITRUM_USDC : String := "0xaf88d065e77c8cC2239327C5EDb3A432268e5831"
def FACILITATOR_URL : String := "https://facilitator.payai.network"

/-- The static network catalogue (`NETWORKS`): Base, SKALE Europa
(gasless), Arbitrum One. -/
def NETWORKS : List Network :=
  [ { key := "base", caip2 := "eip155:8453", name := "Base", chainId := 8453,
      usdc := BASE_USDC, rpc := "https://mainnet.base.org" },
    { key := "skale", caip2 := "eip155:2046399126", name := "SKALE Europa",
      chainId := 2046399126, usdc := SKALE_USDC, gasless := true,
      rpc := "https://mainnet.skalenodes.com/v1/elated-tan-skat",
      finality := some "<1s", privacy := some "BITE" },
    { key := "arbitrum", caip2 := "eip155:42161", name := "Arbitrum One",
      chainId := 42161, usdc := ARBITRUM_USDC,
      rpc := "https://arb1.arbitrum.io/rpc" } ]

def baseCaip2 : String := "eip155:8453"
def skaleCaip2 : String := "eip155:2046399126"

/-- One entry of the `accepts` array of a payment-requirements object. -/
structure AcceptEntry where
  scheme : String
  network : String
  price : String
  payTo : String
  asset : String
  maxAmountRequired : String
  maxTimeoutSeconds : Nat
  gasless : Option Bool := none
  finality : Option String := none
  note : Option String := none
deriving DecidableEq, Repr

/-- The fixed `extensions` descriptor attached to payment requirements. -/
structure ReqExtensions where
  siwxSupported : Bool
  siwxStatement : String
  siwxChains : List String
  paymentIdSupported : Bool
deriving DecidableEq, Repr

/-- The x402 V2 payment-requirements object. -/
structure PaymentRequirements where
  version : String
  accepts : List AcceptEntry
  resource : String
  description : String
  facilitator : String
  extensions : ReqExtensions
deriving DecidableEq, Repr

instance : Inhabited PaymentRequirements :=
  ⟨{ version := "", accepts := [], resource := "", description := "",
     facilitator := "",
     extensions := { siwxSupported := false, siwxStatement := "",
                     siwxChains := [], paymentIdSupported := false } }⟩

/-- `createPaymentRequired(skill)`: the pricing table only knows
`screenshot`, `markdown-to-pdf` and `ai-analysis`; every other skill
(notably the free `markdown-to-html`) yields `null`.  The `accepts` array
has exactly two entries — Base and SKALE — even though the `NETWORKS`
catalogue lists three networks. -/
def createPaymentRequired (skill : String) : Option PaymentRequirements :=
  let pricing : Option (String × String × String) :=
    if skill = "screenshot" then some ("$0.01", "10000", "Screenshot - $0.01 USDC")
    else if skill = "markdown-to-pdf" then some ("$0.005", "5000", "Markdown to PDF - $0.005 USDC")
    else if skill = "ai-analysis" then some ("$0.01", "10000", "AI Analysis (Gemini) - $0.01 USDC")
    else none
  match pricing with
  | none => none
  | some (price, amount, description) =>
    some {
      version := "2.0",
      accepts :=
        [ { scheme := "exact", network := baseCaip2, price := price,
            payTo := WALLET_ADDRESS, asset := BASE_USDC,
            maxAmountRequired := amount, maxTimeoutSeconds := 600 },
          { scheme := "exact", network := skaleCaip2, price := price,
            payTo := WALLET_ADDRESS, asset := SKALE_USDC,
            maxAmountRequired := amount, maxTimeoutSeconds := 600,
            gasless := some true, finality := some "<1s",
            note := some "SKALE Europa Hub — zero gas fees, sub-second finality, BITE privacy" } ],
      resource := "/" ++ skill,
      description := description,
      facilitator := FACILITATOR_URL,
      extensions := {
        siwxSupported := true,
        siwxStatement := "Sign in to access " ++ skill ++ " without repaying",
        siwxChains := [baseCaip2, skaleCaip2],
        paymentIdSupported := true } }

/-! ## Snapshot loader (`loadStats`) -/

/-- One payment event of the append-only log. -/
structure Event where
  type : String
  taskId : String
  skill : Option String := none
  wallet : Option String := none
  network : Option String := none
  txHash : Option String := none
  amount : Option String := none
  timestamp : Nat := 0
deriving DecidableEq, Repr

/-- Persisted session value: `{ skills, lastPayment }`. -/
structure SavedSession where
  skills : List String
  lastPayment : Option Nat
deriving DecidableEq, Repr

/-- The persisted snapshot value `{paymentLog, siwxSessions, totalTasks,
startedAt}`. -/
structure PersistedStats where
  paymentLog : List Event
  siwxSessions : List (String × SavedSession)
  totalTasks : Nat
  startedAt : Nat
deriving DecidableEq, Repr

/-- The fresh default state `{ paymentLog: [], siwxSessions: {},
totalTasks: 0, startedAt: new Date() }`. -/
def freshStats (now : Nat) : PersistedStats :=
  { paymentLog := [], siwxSessions := [], totalTasks := 0, startedAt := now }

/-- `loadStats()`.  `file` is the snapshot file content (`none` when the
file does not exist); `parse` stands for `JSON.parse` plus field coercion,
returning `none` exactly when parsing throws (caught by the handler's
`try/catch`); `now` is the wall clock. -/
def loadStats (file : Option String) (parse : String → Option PersistedStats)
    (now : Nat) : PersistedStats :=
  match file with
  | none => freshStats now
  | some raw =>
    if (trimJS raw.data).isEmpty then freshStats now
    else
      match parse raw with
      | none => freshStats now
      | some data => data

/-! ## Tasks, messages, sessions, server state -/

/-- A message part: `{kind:"text"}`, `{kind:"data"}` (payload opaque to the
state machine) or `{kind:"file"}`. -/
inductive Part
  | text (s : String)
  | dat
  | file (name mime contents : String)
deriving DecidableEq, Repr

/-- First part whose `kind` is `"text"` (the dispatcher's
`parts.find(p => p.kind === 'text' …)`). -/
def firstTextPart : List Part → Option String
  | [] => none
  | .text s :: _ => some s
  | _ :: rest => firstTextPart rest

/-- The client-supplied payment payload (`x402.payment.payload`).
`fromW` is the payload's `from` field (`from` is a Lean keyword). -/
structure PaymentPayload where
  fromW : Option String := none
  network : Option String := none
  scheme : Option String := none
  signature : Option String := none
deriving DecidableEq, Repr

/-- What reaches `handlePaidExecution` as its `paymentPayload` argument:
either the raw `x402.payment.signature` string from the RPC params metadata
or a structured payload object.  Property access `payload?.from` on a
string yields `undefined`. -/
inductive PayArg
  | sig (s : String)
  | payload (p : PaymentPayload)
deriving DecidableEq, Repr

def PayArg.fromW : PayArg → Option String
  | .sig _ => none
  | .payload p => p.fromW

def PayArg.network : PayArg → Option String
  | .sig _ => none
  | .payload p => p.network

/-- An `x402SettleResponse` receipt. -/
structure Receipt where
  success : Bool
  transaction : Option String := none
  network : String
  payer : Option String := none
  errorReason : Option String := none
deriving DecidableEq, Repr

/-- The `x402PaymentRequiredResponse` object `{x402Version: 1, accepts}`. -/
structure X402Required where
  x402Version : Nat
  accepts : List AcceptEntry
deriving DecidableEq, Repr

/-- Typed view of the flat `x402.*` message-metadata bag. -/
structure MsgMeta where
  paymentStatus : Option String := none       -- `x402.payment.status`
  paymentPayload : Option PaymentPayload := none -- `x402.payment.payload`
  paymentRequired : Option X402Required := none  -- `x402.payment.required`
  siwxWallet : Option String := none          -- `x402.siwx.wallet`
  payer : Option String := none               -- `x402.payer`
  network : Option String := none             -- `x402.network`
  receipts : Option (List Receipt) := none    -- `x402.payment.receipts`
  paymentError : Option String := none        -- `x402.payment.error`
deriving DecidableEq, Repr

/-- An A2A message. -/
structure Message where
  role : String := "user"
  messageId : String := ""
  parts : List Part := []
  taskId : Option String := none
  contextId : Option String := none
  metadata : MsgMeta := {}
deriving DecidableEq, Repr

/-- Typed view of the flat `x402.*` task-metadata bag. -/
structure TaskMeta where
  accepts : Option (List AcceptEntry) := none      -- `x402.accepts`
  skill : Option String := none                    -- `x402.skill`
  version : Option String := none                  -- `x402.version`
  originalRequest : Option ParsedRequest := none   -- `x402.originalRequest`
  paymentStatus : Option String := none            -- `x402.payment.status`
  paymentSettled : Option Bool := none             -- `x402.payment.settled`
  receipts : Option (List Receipt) := none         -- `x402.payment.receipts`
  txHash : Option String := none                   -- `x402.txHash`
  siwxActive : Option Bool := none                 -- `x402.siwx.active`
  paymentError : Option String := none             -- `x402.payment.error`
deriving DecidableEq, Repr

/-- A task record: `{id, contextId, status: {state, timestamp, message?},
history, artifacts: [], metadata}` (`artifacts` is always empty and
omitted). -/
structure Task where
  id : String
  contextId : String
  state : String
  statusTimestamp : Nat
  statusMessage : Option Message := none
  history : List Message := []
  metadata : TaskMeta := {}
deriving DecidableEq, Repr

instance : Inhabited Task :=
  ⟨{ id := "", contextId := "", state := "", statusTimestamp := 0 }⟩

/-- An SIWx session value `{paidSkills, lastPayment}`. -/
structure SiwxSession where
  paidSkills : List String := []
  lastPayment : Option Nat := none
deriving DecidableEq, Repr

/-- The process-wide mutable state: task map, append-only payment log,
session map, monotone total-task counter. -/
structure ServerState where
  tasks : List (String × Task) := []
  paymentLog : List Event := []
  siwxSessions : List (String × SiwxSession) := []
  totalTaskCount : Nat := 0
deriving DecidableEq, Repr

/-- Fresh process state (snapshot absent / empty / corrupt). -/
def initState : ServerState := {}

/-- JS `Map.get` (keys are unique, so first match is the entry). -/
def alistGet {α : Type} : List (String × α) → String → Option α
  | [], _ => none
  | (k', v) :: t, k => if k' = k then some v else alistGet t k

/-- JS `Map.set`: replace in place, or append preserving insertion order. -/
def alistSet {α : Type} (l : List (String × α)) (k : String) (v : α) :
    List (String × α) :=
  match l with
  | [] => [(k, v)]
  | (k', v') :: t => if k' = k then (k, v) :: t else (k', v') :: alistSet t k v

def getTask (σ : ServerState) (id : String) : Option Task := alistGet σ.tasks id

/-- `createTask(id, contextId, state, message?)`: insert a fresh task and
bump the total-task counter. -/
def createTask (σ : ServerState) (id contextId state : String)
    (message : Option Message) (now : Nat) : ServerState :=
  let task : Task := { id := id, contextId := contextId, state := state,
                       statusTimestamp := now, statusMessage := message }
  { σ with tasks := alistSet σ.tasks id task,
           totalTaskCount := σ.totalTaskCount + 1 }

/-- `updateTask(taskId, state, message?, metadata?)`: missing task →
no change (returns `null`); otherwise the status is replaced wholesale with
the new state/timestamp/message and the metadata patch is merged with
`Object.assign`.  There is no terminal-state guard. -/
def updateTask (σ : ServerState) (taskId state : String)
    (message : Option Message) (patch : Option (TaskMeta → TaskMeta))
    (now : Nat) : ServerState :=
  match getTask σ taskId with
  | none => σ
  | some task =>
    let task' : Task :=
      { task with state := state, statusTimestamp := now,
                  statusMessage := message,
                  metadata := match patch with
                    | some f => f task.metadata
                    | none => task.metadata }
    { σ with tasks := alistSet σ.tasks taskId task' }

/-- `task.history.push(message)` (in-place mutation of the stored task). -/
def pushHistory (σ : ServerState) (taskId : String) (m : Message) : ServerState :=
  match getTask σ taskId with
  | none => σ
  | some t =>
    let upd : Task := { t with history := t.history ++ [m] }
    { σ with tasks := alistSet σ.tasks taskId upd }

/-- Direct in-place metadata mutation
(`task.metadata['x402.…'] = …` on the stored task). -/
def setTaskMeta (σ : ServerState) (taskId : String) (f : TaskMeta → TaskMeta) :
    ServerState :=
  match getTask σ taskId with
  | none => σ
  | some t =>
    let upd : Task := { t with metadata := f t.metadata }
    { σ with tasks := alistSet σ.tasks taskId upd }

/-- `paymentLog.push(event)`: append-only. -/
def pushEvent (σ : ServerState) (e : Event) : ServerState :=
  { σ with paymentLog := σ.paymentLog ++ [e] }

/-- Lowercased wallet key (`walletAddress.toLowerCase()`). -/
def lowerStr (s : String) : String := ⟨lowerL s.data⟩

/-- The session-map part of `recordSiwxPayment`: lowercase the wallet,
upsert the session, add the skill to the set, stamp `lastPayment`. -/
def recordSession (sessions : List (String × SiwxSession))
    (walletAddress skill : String) (now : Nat) : List (String × SiwxSession) :=
  let normalized := lowerStr walletAddress
  let session := (alistGet sessions normalized).getD {}
  let session' : SiwxSession :=
    { paidSkills := if session.paidSkills.contains skill then session.paidSkills
                    else session.paidSkills ++ [skill],
      lastPayment := some now }
  alistSet sessions normalized session'

/-- `recordSiwxPayment(walletAddress, skill)`. -/
def recordSiwxPayment (σ : ServerState) (walletAddress skill : String)
    (now : Nat) : ServerState :=
  { σ with siwxSessions := recordSession σ.siwxSessions walletAddress skill now }

/-- `hasSiwxAccess(walletAddress, skill)`: false for a missing or empty
wallet, otherwise a membership test on the lowercased key. -/
def hasSiwxAccess (σ : ServerState) (walletAddress : Option String)
    (skill : String) : Bool :=
  match walletAddress with
  | none => false
  | some w =>
    let normalized := lowerStr w
    if normalized = "" then false
    else match alistGet σ.siwxSessions normalized with
      | none => false
      | some s => s.paidSkills.contains skill

/-! ## Oracle inputs

UUIDs (`uuidv4()`), the wall clock (`new Date()`), and the awaited result
of the external skill executor (an opaque async collaborator per the spec)
are nondeterministic inputs of each request; they are supplied explicitly.
The synthesised settlement id is `'0x'` plus the dash-free uuid, i.e.
`"0x" ++ txSuffix`. -/
structure Oracle where
  now : Nat := 0
  freshTaskId : String := "task-fresh"
  freshCtxId : String := "ctx-fresh"
  freshMsgId : String := "msg-fresh"
  txSuffix : String := "deadbeef"
  exec : Except String (List Part) := .ok []
deriving Repr

/-! ## Executor selection (the `if (request.skill === …)` chains).
The selected executor is an external HTTP collaborator; which one is
invoked is recorded here for fidelity, its outcome comes from the oracle. -/

inductive ExecCall
  | screenshot (url : String)
  | screenshotWithAnalysis (url : String)
  | markdownToPdf (markdown : String)
  | aiAnalysis (input : String)
  | markdownToHtml (markdown : String)
deriving DecidableEq, Repr

/-- Executor chain of `handleFreeExecution`. -/
def chooseFreeExecutor (request : ParsedRequest) : ExecCall :=
  if request.skill = "screenshot" && jsTruthy request.url then
    .screenshot (request.url.getD "")
  else if request.skill = "markdown-to-pdf" then
    .markdownToPdf (jsOrStr request.markdown "# Document")
  else if request.skill = "ai-analysis" then
    .aiAnalysis (jsOrStr request.content (jsOrStr request.markdown "Hello"))
  else
    .markdownToHtml (jsOrStr request.markdown (jsOrStr request.url "# Hello"))

/-- Executor chain of `handlePaidExecution` (paid screenshots get the
Gemini-augmented variant). -/
def choosePaidExecutor (request : ParsedRequest) : ExecCall :=
  if request.skill = "screenshot" && jsTruthy request.url then
    .screenshotWithAnalysis (request.url.getD "")
  else if request.skill = "markdown-to-pdf" then
    .markdownToPdf (jsOrStr request.markdown "# Document")
  else if request.skill = "ai-analysis" then
    .aiAnalysis (jsOrStr request.content (jsOrStr request.markdown "Hello"))
  else
    .markdownToHtml (jsOrStr request.markdown "# Hello")

/-! ## JSON-RPC surface -/

/-- Google A2A x402 extension URIs. -/
def uriV02 : String :=
  "https://github.com/google-agentic-commerce/a2a-x402/blob/main/spec/v0.2"

def uriV01 : String := "https://github.com/google-a2a/a2a-x402/v0.1"

inductive RpcOutcome
  | result (t : Task)
  | err (code : Int)
deriving DecidableEq, Repr

/-- A JSON-RPC response together with the `X-A2A-Extensions` response
header (last `res.header(…)` write wins). -/
structure RpcResponse where
  header : Option String := none
  outcome : RpcOutcome
deriving DecidableEq, Repr

structure RpcParamsMeta where
  paymentSignature : Option String := none   -- `x402.payment.signature`
deriving DecidableEq, Repr

structure RpcParams where
  message : Option Message := none
  id : Option String := none
  metadata : Option RpcParamsMeta := none
  extensions : Option String := none
deriving DecidableEq, Repr

structure RpcRequest where
  jsonrpc : String := "2.0"
  method : String
  params : Option RpcParams := none
  extHeader : String := ""     -- the `X-A2A-Extensions` request header, `''` when absent
deriving DecidableEq, Repr

def strIncludes (hay needle : String) : Bool := listHasSub hay.data needle.data

/-- `handleFreeExecution(rpcId, taskId, contextId, request, message, res)`:
create the task `working`, push the message, await the executor, then mark
`completed` (result parts) or `failed` (error text).  No events, no
receipts. -/
def handleFreeExecution (σ : ServerState) (hdr : Option String)
    (taskId contextId : String) (request : ParsedRequest) (message : Message)
    (o : Oracle) : ServerState × RpcResponse :=
  let _ := chooseFreeExecutor request
  let σ := createTask σ taskId contextId "working" none o.now
  let σ := pushHistory σ taskId message
  match o.exec with
  | .ok parts =>
    let σ := updateTask σ taskId "completed"
      (some { role := "agent", messageId := o.freshMsgId, parts := parts,
              taskId := some taskId, contextId := some contextId }) none o.now
    (σ, { header := hdr, outcome := .result ((getTask σ taskId).getD default) })
  | .error errMsg =>
    let σ := updateTask σ taskId "failed"
      (some { role := "agent", messageId := o.freshMsgId,
              parts := [.text ("Error: " ++ errMsg)],
              taskId := some taskId, contextId := some contextId }) none o.now
    (σ, { header := hdr, outcome := .result ((getTask σ taskId).getD default) })

/-- `paymentPayload?.from || message.metadata?.['x402.payer'] || 'unknown'`. -/
def paidPayer (paymentPayload : Option PayArg) (message : Message) : String :=
  jsOrStr (paymentPayload.bind PayArg.fromW)
    (jsOrStr message.metadata.payer "unknown")

/-- `paymentPayload?.network || message.metadata?.['x402.network'] ||
'eip155:8453'`. -/
def paidNetwork (paymentPayload : Option PayArg) (message : Message) : String :=
  jsOrStr (paymentPayload.bind PayArg.network)
    (jsOrStr message.metadata.network "eip155:8453")

/-- The events appended to the log by one paid execution. -/
def paidDelta (taskId : String) (request : ParsedRequest)
    (payerWallet paymentNetwork : String) (o : Oracle) : List Event :=
  { type := "payment-received", taskId := taskId, skill := some request.skill,
    wallet := some payerWallet, network := some paymentNetwork,
    timestamp := o.now } ::
  { type := "payment-verified", taskId := taskId, skill := some request.skill,
    wallet := some payerWallet, network := some paymentNetwork,
    timestamp := o.now } ::
  (match o.exec with
   | .ok _ => [{ type := "payment-settled", taskId := taskId,
                 skill := some request.skill,
                 txHash := some ("0x" ++ o.txSuffix), wallet := some payerWallet,
                 network := some paymentNetwork, timestamp := o.now }]
   | .error _ => [])

/-- `handlePaidExecution(rpcId, taskId, contextId, request, paymentPayload,
message, res)`: push `payment-received`, record the SIWx session when the
payer is known, reuse or create the task, mark it `working`, push
`payment-verified`, await the executor; on success synthesise the
transaction id, push `payment-settled` and complete with a success receipt;
on failure mark `failed` with a failure receipt.  (`saveStats()` only
writes the snapshot file and does not change in-memory state.) -/
def handlePaidExecution (σ : ServerState) (hdr : Option String)
    (taskId contextId : String) (request : ParsedRequest)
    (paymentPayload : Option PayArg) (message : Message) (o : Oracle) :
    ServerState × RpcResponse :=
  let _ := choosePaidExecutor request
  let payerWallet := paidPayer paymentPayload message
  let paymentNetwork := paidNetwork paymentPayload message
  let σ := pushEvent σ { type := "payment-received", taskId := taskId,
                         skill := some request.skill, wallet := some payerWallet,
                         network := some paymentNetwork, timestamp := o.now }
  let σ := if payerWallet ≠ "unknown" then
             recordSiwxPayment σ payerWallet request.skill o.now
           else σ
  let σ := match getTask σ taskId with
    | none => createTask σ taskId contextId "working" none o.now
    | some _ => updateTask σ taskId "working" none none o.now
  let σ := pushHistory σ taskId message
  let σ := setTaskMeta σ taskId
    (fun m => { m with paymentStatus := some "payment-verified" })
  let σ := pushEvent σ { type := "payment-verified", taskId := taskId,
                         skill := some request.skill, wallet := some payerWallet,
                         network := some paymentNetwork, timestamp := o.now }
  match o.exec with
  | .ok parts =>
    let txHash := "0x" ++ o.txSuffix
    let σ := pushEvent σ { type := "payment-settled", taskId := taskId,
                           skill := some request.skill, txHash := some txHash,
                           wallet := some payerWallet,
                           network := some paymentNetwork, timestamp := o.now }
    let x402Receipt : Receipt := { success := true, transaction := some txHash,
                                   network := paymentNetwork,
                                   payer := some payerWallet }
    let σ := updateTask σ taskId "completed"
      (some { role := "agent", messageId := o.freshMsgId, parts := parts,
              taskId := some taskId, contextId := some contextId,
              metadata := { paymentStatus := some "payment-completed",
                            receipts := some [x402Receipt] } })
      (some fun m =>
        { m with paymentSettled := some true,
                 paymentStatus := some "payment-completed",
                 receipts := some [x402Receipt],
                 txHash := some txHash,
                 version := some "2.0",
                 siwxActive := some (payerWallet ≠ "unknown") }) o.now
    (σ, { header := hdr, outcome := .result ((getTask σ taskId).getD default) })
  | .error errMsg =>
    let failReceipt : Receipt := { success := false, network := paymentNetwork,
                                   errorReason := some errMsg }
    let σ := updateTask σ taskId "failed"
      (some { role := "agent", messageId := o.freshMsgId,
              parts := [.text ("Error: " ++ errMsg)], taskId := some taskId,
              contextId := some contextId,
              metadata := { paymentStatus := some "payment-failed",
                            paymentError := some "SETTLEMENT_FAILED",
                            receipts := some [failReceipt] } })
      (some fun m =>
        { m with paymentStatus := some "payment-failed",
                 paymentError := some "SETTLEMENT_FAILED",
                 receipts := some [failReceipt] }) o.now
    (σ, { header := hdr, outcome := .result ((getTask σ taskId).getD default) })

/-- The "new interaction" tail of `handleMessageSend`: direct payment,
SIWx session access, payment-required, or free execution — in that order. -/
def handleNewMessage (σ : ServerState) (hdr : Option String) (message : Message)
    (text : String) (params : Option RpcParams) (o : Oracle) :
    ServerState × RpcResponse :=
  let taskId := o.freshTaskId
  let contextId := jsOrStr message.contextId o.freshCtxId
  let request := parseRequest text.data
  -- `paymentSignature = params?.metadata?.['x402.payment.signature']
  --                     || message.metadata?.['x402.payment.payload']`
  let paymentSignature : Option PayArg :=
    match (params.bind RpcParams.metadata).bind RpcParamsMeta.paymentSignature with
    | some s =>
        if s = "" then (message.metadata.paymentPayload).map PayArg.payload
        else some (.sig s)
    | none => (message.metadata.paymentPayload).map PayArg.payload
  if paymentSignature.isSome ||
     (message.metadata.paymentStatus == some "payment-submitted" &&
      (message.metadata.paymentPayload).isSome) then
    let payload : Option PayArg :=
      match paymentSignature with
      | some p => some p
      | none => (message.metadata.paymentPayload).map PayArg.payload
    handlePaidExecution σ hdr taskId contextId request payload message o
  else if jsTruthy message.metadata.siwxWallet &&
          hasSiwxAccess σ message.metadata.siwxWallet request.skill then
    let σ := pushEvent σ { type := "siwx-access", taskId := taskId,
                           skill := some request.skill,
                           wallet := message.metadata.siwxWallet,
                           network := none, timestamp := o.now }
    handleFreeExecution σ hdr taskId contextId request message o
  else
    match createPaymentRequired request.skill with
    | some payReq =>
      let x402Resp : X402Required := { x402Version := 1, accepts := payReq.accepts }
      let statusMsg : Message := {
        role := "agent", messageId := o.freshMsgId,
        parts := [.text ("Payment required: " ++ payReq.description), .dat],
        taskId := some taskId, contextId := some contextId,
        metadata := { paymentStatus := some "payment-required",
                      paymentRequired := some x402Resp } }
      let σ := createTask σ taskId contextId "input-required" (some statusMsg) o.now
      let σ := setTaskMeta σ taskId (fun m =>
        { m with accepts := some payReq.accepts, skill := some request.skill,
                 version := some "2.0", originalRequest := some request })
      let σ := pushEvent σ { type := "payment-required", taskId := taskId,
                             skill := some request.skill,
                             amount := (payReq.accepts.head?).map AcceptEntry.price,
                             network := none, timestamp := o.now }
      -- `res.header('X-A2A-Extensions', GOOGLE_X402_EXTENSION_URI)`:
      -- unconditionally overwrites any earlier echo with the v0.2 URI.
      (σ, { header := some uriV02,
            outcome := .result ((getTask σ taskId).getD default) })
    | none => handleFreeExecution σ hdr taskId contextId request message o

/-- Correlated-submission stage of `handleMessageSend`: a
`payment-submitted` status with an existing task re-enters the paid path;
the cached skill/original request drive executor selection (the spread
`{ skill, ...originalRequest }` lets the cached request win). -/
def handleCorrelated (σ : ServerState) (hdr : Option String) (message : Message)
    (text : String) (params : Option RpcParams) (o : Oracle) :
    ServerState × RpcResponse :=
  if message.metadata.paymentStatus == some "payment-submitted" &&
     jsTruthy message.taskId then
    match getTask σ (message.taskId.getD "") with
    | some existingTask =>
      let request : ParsedRequest :=
        if jsTruthy existingTask.metadata.skill then
          match existingTask.metadata.originalRequest with
          | some r => r
          | none => { skill := existingTask.metadata.skill.getD "" }
        else parseRequest text.data
      let paymentPayload := (message.metadata.paymentPayload).map PayArg.payload
      let contextId := jsOrStr (some existingTask.contextId)
                         (jsOrStr message.contextId o.freshCtxId)
      handlePaidExecution σ hdr (message.taskId.getD "") contextId request
        paymentPayload message o
    | none => handleNewMessage σ hdr message text params o
  else handleNewMessage σ hdr message text params o

/-- Body of `handleMessageSend` after params validation: the
`payment-rejected` stage, then correlation, then the new-interaction tail. -/
def handleMessageBody (σ : ServerState) (hdr : Option String) (message : Message)
    (text : String) (params : Option RpcParams) (o : Oracle) :
    ServerState × RpcResponse :=
  if message.metadata.paymentStatus == some "payment-rejected" &&
     jsTruthy message.taskId then
    match getTask σ (message.taskId.getD "") with
    | some existingTask =>
      let tid := message.taskId.getD ""
      let σ := updateTask σ tid "canceled"
        (some { role := "agent", messageId := o.freshMsgId,
                parts := [.text "Payment rejected by client. Task canceled."],
                metadata := { paymentStatus := some "payment-rejected" },
                taskId := message.taskId,
                contextId := some existingTask.contextId }) none o.now
      let σ := pushEvent σ { type := "payment-rejected", taskId := tid,
                             skill := existingTask.metadata.skill,
                             timestamp := o.now }
      (σ, { header := hdr, outcome := .result ((getTask σ tid).getD default) })
    | none => handleCorrelated σ hdr message text params o
  else handleCorrelated σ hdr message text params o

/-- `handleMessageSend(rpcId, params, res)`. -/
def handleMessageSend (σ : ServerState) (hdr : Option String)
    (params : Option RpcParams) (o : Oracle) : ServerState × RpcResponse :=
  match params.bind RpcParams.message with
  | none => (σ, { header := hdr, outcome := .err (-32602) })
  | some message =>
    if message.parts.isEmpty then (σ, { header := hdr, outcome := .err (-32602) })
    else
      match firstTextPart message.parts with
      | none => (σ, { header := hdr, outcome := .err (-32602) })
      | some text => handleMessageBody σ hdr message text params o

/-- `handleTasksGet(rpcId, params, res)`. -/
def handleTasksGet (σ : ServerState) (hdr : Option String)
    (params : Option RpcParams) : ServerState × RpcResponse :=
  match (params.bind RpcParams.id).bind (getTask σ) with
  | none => (σ, { header := hdr, outcome := .err (-32001) })
  | some task => (σ, { header := hdr, outcome := .result task })

/-- `handleTasksCancel(rpcId, params, res)`: missing task → `-32001`,
otherwise `updateTask(id, 'canceled')` unconditionally (no terminal-state
check) and return the updated record. -/
def handleTasksCancel (σ : ServerState) (hdr : Option String)
    (params : Option RpcParams) (o : Oracle) : ServerState × RpcResponse :=
  match params.bind RpcParams.id with
  | none => (σ, { header := hdr, outcome := .err (-32001) })
  | some id =>
    match getTask σ id with
    | none => (σ, { header := hdr, outcome := .err (-32001) })
    | some _ =>
      let σ := updateTask σ id "canceled" none none o.now
      (σ, { header := hdr, outcome := .result ((getTask σ id).getD default) })

/-- `handleJsonRpc(req, res)`: envelope check, extension-activation echo,
then method dispatch. -/
def handleJsonRpc (σ : ServerState) (req : RpcRequest) (o : Oracle) :
    ServerState × RpcResponse :=
  if req.jsonrpc ≠ "2.0" then (σ, { header := none, outcome := .err (-32600) })
  else
    let clientExtensions := req.extHeader
    let hdr : Option String :=
      if strIncludes clientExtensions "x402" ||
         strIncludes clientExtensions "google-agentic-commerce" ||
         strIncludes clientExtensions "google-a2a" then
        some (if strIncludes clientExtensions uriV01 then uriV01 else uriV02)
      else none
    if req.method = "message/send" || req.method = "tasks/send" then
      handleMessageSend σ hdr req.params o
    else if req.method = "tasks/get" then handleTasksGet σ hdr req.params
    else if req.method = "tasks/cancel" then handleTasksCancel σ hdr req.params o
    else (σ, { header := hdr, outcome := .err (-32601) })

/-! ## REST x402 surface -/

/-- Fields of the JSON request body used by the REST routes. -/
structure RestBody where
  url : Option String := none
  markdown : Option String := none
  content : Option String := none
  text : Option String := none
  prompt : Option String := none
  payer : Option String := none
  network : Option String := none
deriving DecidableEq, Repr

/-- REST responses: 402 payment required, 400 bad request, 200 success
(binary/JSON body opaque), 500 executor error. -/
inductive RestOut
  | payRequired (pr : PaymentRequirements)
  | badRequest (error : String)
  | ok (txHash : String)
  | serverError (error : String)
deriving DecidableEq, Repr

def RestOut.status : RestOut → Nat
  | .payRequired _ => 402
  | .badRequest _ => 400
  | .ok _ => 200
  | .serverError _ => 500

/-- `GET /x402/screenshot`: always 402 with the requirements body. -/
def getX402Screenshot : Nat × Option PaymentRequirements :=
  (402, createPaymentRequired "screenshot")

/-- `GET /x402/pdf` (note: the route path is `pdf`, not the skill id
`markdown-to-pdf`; there is no `GET /x402/markdown-to-pdf` route). -/
def getX402Pdf : Nat × Option PaymentRequirements :=
  (402, createPaymentRequired "markdown-to-pdf")

/-- `GET /x402/ai-analysis`: always 402 with the requirements body. -/
def getX402AiAnalysis : Nat × Option PaymentRequirements :=
  (402, createPaymentRequired "ai-analysis")

/-- `POST /x402/screenshot`: 402 without a payment header; 400 without a
url; otherwise push `payment-received`, record the SIWx session when the
payer is not the default `http-x402-client`, run the executor, and on
success push `payment-settled` and bump the counter. -/
def postX402Screenshot (σ : ServerState) (sigHeader xPayHeader : Option String)
    (body : Option RestBody) (queryUrl netHeader : Option String) (o : Oracle) :
    ServerState × RestOut :=
  let paymentSig := jsOrOpt sigHeader xPayHeader
  if !jsTruthy paymentSig then
    (σ, .payRequired ((createPaymentRequired "screenshot").getD default))
  else
    let url := jsOrOpt (body.bind RestBody.url) queryUrl
    if !jsTruthy url then (σ, .badRequest "Missing url parameter (body or query)")
    else
      let taskId := o.freshTaskId
      let payer := jsOrStr (body.bind RestBody.payer) "http-x402-client"
      let network := jsOrStr (body.bind RestBody.network)
                       (jsOrStr netHeader baseCaip2)
      let σ := pushEvent σ { type := "payment-received", taskId := taskId,
                             skill := some "screenshot", wallet := some payer,
                             network := some network, timestamp := o.now }
      let σ := if payer ≠ "http-x402-client" then
                 recordSiwxPayment σ payer "screenshot" o.now
               else σ
      match o.exec with
      | .ok _ =>
        let txHash := "0x" ++ o.txSuffix
        let σ := pushEvent σ { type := "payment-settled", taskId := taskId,
                               skill := some "screenshot", txHash := some txHash,
                               wallet := some payer, network := some network,
                               timestamp := o.now }
        ({ σ with totalTaskCount := σ.totalTaskCount + 1 }, .ok txHash)
      | .error e => (σ, .serverError e)

/-- `POST /x402/pdf`: like the screenshot route but, unlike the screenshot
and ai-analysis routes, it never records an SIWx session for the payer. -/
def postX402Pdf (σ : ServerState) (sigHeader xPayHeader : Option String)
    (body : Option RestBody) (netHeader : Option String) (o : Oracle) :
    ServerState × RestOut :=
  let paymentSig := jsOrOpt sigHeader xPayHeader
  if !jsTruthy paymentSig then
    (σ, .payRequired ((createPaymentRequired "markdown-to-pdf").getD default))
  else if !jsTruthy (body.bind RestBody.markdown) then
    (σ, .badRequest "Missing markdown in request body")
  else
    let taskId := o.freshTaskId
    let payer := jsOrStr (body.bind RestBody.payer) "http-x402-client"
    let network := jsOrStr (body.bind RestBody.network)
                     (jsOrStr netHeader baseCaip2)
    let σ := pushEvent σ { type := "payment-received", taskId := taskId,
                           skill := some "markdown-to-pdf", wallet := some payer,
                           network := some network, timestamp := o.now }
    match o.exec with
    | .ok _ =>
      let txHash := "0x" ++ o.txSuffix
      let σ := pushEvent σ { type := "payment-settled", taskId := taskId,
                             skill := some "markdown-to-pdf",
                             txHash := some txHash, wallet := some payer,
                             network := some network, timestamp := o.now }
      ({ σ with totalTaskCount := σ.totalTaskCount + 1 }, .ok txHash)
    | .error e => (σ, .serverError e)

/-- `POST /x402/ai-analysis`: `content || text || prompt` body fields;
records the SIWx session for a non-default payer. -/
def postX402AiAnalysis (σ : ServerState) (sigHeader xPayHeader : Option String)
    (body : Option RestBody) (netHeader : Option String) (o : Oracle) :
    ServerState × RestOut :=
  let paymentSig := jsOrOpt sigHeader xPayHeader
  if !jsTruthy paymentSig then
    (σ, .payRequired ((createPaymentRequired "ai-analysis").getD default))
  else
    let content := jsOrOpt (body.bind RestBody.content)
                     (jsOrOpt (body.bind RestBody.text) (body.bind RestBody.prompt))
    if !jsTruthy content then
      (σ, .badRequest "Missing content/text/prompt in request body")
    else
      let taskId := o.freshTaskId
      let payer := jsOrStr (body.bind RestBody.payer) "http-x402-client"
      let network := jsOrStr (body.bind RestBody.network)
                       (jsOrStr netHeader baseCaip2)
      let σ := pushEvent σ { type := "payment-received", taskId := taskId,
                             skill := some "ai-analysis", wallet := some payer,
                             network := some network, timestamp := o.now }
      let σ := if payer ≠ "http-x402-client" then
                 recordSiwxPayment σ payer "ai-analysis" o.now
               else σ
      match o.exec with
      | .ok _ =>
        let txHash := "0x" ++ o.txSuffix
        let σ := pushEvent σ { type := "payment-settled", taskId := taskId,
                               skill := some "ai-analysis", txHash := some txHash,
                               wallet := some payer, network := some network,
                               timestamp := o.now }
        ({ σ with totalTaskCount := σ.totalTaskCount + 1 }, .ok txHash)
      | .error e => (σ, .serverError e)

/-- `POST /x402/html` (free): 400 without markdown; on success only bumps
the counter; no events, no sessions. -/
def postX402Html (σ : ServerState) (body : Option RestBody) (o : Oracle) :
    ServerState × RestOut :=
  if !jsTruthy (body.bind RestBody.markdown) then
    (σ, .badRequest "Missing markdown in request body")
  else
    match o.exec with
    | .ok _ => ({ σ with totalTaskCount := σ.totalTaskCount + 1 }, .ok "")
    | .error e => (σ, .serverError e)

/-- `POST /gemini` (free demo, 500-char limit): bumps the counter only when
the Gemini call succeeds; a failed call still answers 200 with a
placeholder. -/
def postGemini (σ : ServerState) (body : Option RestBody) (o : Oracle) :
    ServerState × RestOut :=
  let content := jsOrOpt (body.bind RestBody.content)
                   (jsOrOpt (body.bind RestBody.text) (body.bind RestBody.prompt))
  if !jsTruthy content then
    (σ, .badRequest "Missing content/text/prompt in request body")
  else if (content.getD "").length > 500 then
    (σ, .badRequest "Free endpoint limited to 500 chars. Use /x402/ai-analysis for longer content.")
  else
    match o.exec with
    | .ok _ => ({ σ with totalTaskCount := σ.totalTaskCount + 1 }, .ok "")
    | .error _ => (σ, .ok "")

/-! ## Traces: every state-mutating entry point of the server -/

/-- One incoming request (the GET routes are pure and need no step). -/
inductive Op
  | rpc (req : RpcRequest) (o : Oracle)
  | postScreenshot (sigHeader xPayHeader : Option String) (body : Option RestBody)
      (queryUrl netHeader : Option String) (o : Oracle)
  | postPdf (sigHeader xPayHeader : Option String) (body : Option RestBody)
      (netHeader : Option String) (o : Oracle)
  | postAi (sigHeader xPayHeader : Option String) (body : Option RestBody)
      (netHeader : Option String) (o : Oracle)
  | postHtml (body : Option RestBody) (o : Oracle)
  | gemini (body : Option RestBody) (o : Oracle)

/-- State transition of one request. -/
def step (σ : ServerState) : Op → ServerState
  | .rpc req o => (handleJsonRpc σ req o).1
  | .postScreenshot s x b q n o => (postX402Screenshot σ s x b q n o).1
  | .postPdf s x b n o => (postX402Pdf σ s x b n o).1
  | .postAi s x b n o => (postX402AiAnalysis σ s x b n o).1
  | .postHtml b o => (postX402Html σ b o).1
  | .gemini b o => (postGemini σ b o).1

/-- Run a request trace from the fresh process state. -/
def run (ops : List Op) : ServerState := ops.foldl step initState

/-- Does a session map record the pair (wallet `w` in lowercased-key form,
skill `s`)? -/
def sessionHasMap (sessions : List (String × SiwxSession)) (w s : String) : Bool :=
  match alistGet sessions w with
  | none => false
  | some sess => sess.paidSkills.contains s

/-- Does the session store record the pair (wallet `w` in lowercased-key
form, skill `s`)? -/
def sessionHas (σ : ServerState) (w s : String) : Bool :=
  sessionHasMap σ.siwxSessions w s

/-! ## Verification definitions: predicates and concrete scenarios -/

/-- Terminal task states per the specification. -/
def terminalState (s : String) : Bool :=
  s = "completed" || s = "failed" || s = "canceled"

/-- Number of events of kind `ty` for task `tid` in a log. -/
def countEvents (log : List Event) (ty tid : String) : Nat :=
  (log.filter (fun e => e.type = ty && e.taskId = tid)).length

/-- Spec direction of invariant 3, weakened to what the code maintains:
every recorded wallet × skill session pair is backed by a
`payment-received` event whose wallet lowercases to the session key. -/
def sessionsBacked (σ : ServerState) : Prop :=
  ∀ w sk, sessionHas σ w sk = true →
    ∃ e ∈ σ.paymentLog, e.type = "payment-received" ∧ e.skill = some sk ∧
      ∃ ww, e.wallet = some ww ∧ lowerStr ww = w

/-- Every `payment-settled` event is preceded in the log by a
`payment-received` event for the same task. -/
def settledBacked (log : List Event) : Prop :=
  ∀ j, ∀ (hj : j < log.length), (log.get ⟨j, hj⟩).type = "payment-settled" →
    ∃ i, ∃ (hi : i < log.length), i < j ∧
      (log.get ⟨i, hi⟩).type = "payment-received" ∧
      (log.get ⟨i, hi⟩).taskId = (log.get ⟨j, hj⟩).taskId

/-- The C6 claim as stated: for any two events of the same task, a
`payment-received` always precedes a `payment-settled`. -/
def receivedBeforeSettled (log : List Event) : Prop :=
  ∀ i j : Fin log.length,
    (log.get i).type = "payment-received" →
    (log.get j).type = "payment-settled" →
    (log.get i).taskId = (log.get j).taskId →
    i.val < j.val

instance (log : List Event) : Decidable (receivedBeforeSettled log) := by
  unfold receivedBeforeSettled; infer_instance

/-- The C3 claim as stated: a wallet × skill pair is in the session store
iff a `payment-settled` event for that pair is in the log. -/
def sessionIffSettled (σ : ServerState) (w sk : String) : Prop :=
  sessionHas σ w sk = true ↔
    ∃ e ∈ σ.paymentLog, e.type = "payment-settled" ∧ e.skill = some sk ∧
      e.wallet = some w

instance (σ : ServerState) (w sk : String) : Decidable (sessionIffSettled σ w sk) := by
  unfold sessionIffSettled; infer_instance

/-- The canonical pdf preamble of the spec\'s rule 2. -/
def pdfPre : List Char := "Convert to PDF: ".data

/-- Its lowercasing. -/
def pdfPreLow : List Char := "convert to pdf: ".data

/-- Modelled from the spec: "does not begin with an HTTP(S) URL" — the text
begins with an actual `http://` or `https://` scheme (case-insensitive).
This is the spec-side reading to compare with the code's bare
`lower.startsWith('http')` test. -/
def beginsWithHttpUrl (text : List Char) : Bool :=
  listStarts (lowerL text) "http://".data || listStarts (lowerL text) "https://".data

/-- One step of the log/session footprint of a request: the log only
grows, every new session pair is backed by a `payment-received` event of
the appended suffix, and every `payment-settled` event of the suffix has a
`payment-received` event for the same task earlier in the suffix. -/
def GoodStep (σ σ' : ServerState) : Prop :=
  ∃ δ : List Event,
    σ'.paymentLog = σ.paymentLog ++ δ ∧
    (∀ w sk, sessionHas σ' w sk = true → sessionHas σ w sk = true ∨
       ∃ e ∈ δ, e.type = "payment-received" ∧ e.skill = some sk ∧
         ∃ ww, e.wallet = some ww ∧ lowerStr ww = w) ∧
    (∀ k, ∀ (hk : k < δ.length), (δ.get ⟨k, hk⟩).type = "payment-settled" →
       ∃ k', ∃ (hk' : k' < δ.length), k' < k ∧
         (δ.get ⟨k', hk'⟩).type = "payment-received" ∧
         (δ.get ⟨k', hk'⟩).taskId = (δ.get ⟨k, hk⟩).taskId)

/-! ### Concrete request scenarios used by the counterexamples -/

/-- Oracle with a successful executor. -/
def oracleOk : Oracle := { exec := .ok [.text "ok"] }

/-- `message/send` with the free-skill text `"# Hello"` (markdown-to-html,
price 0). -/
def freeHtmlOp : Op :=
  .rpc { method := "message/send",
         params := some { message := some { parts := [.text "# Hello"] } } }
       { oracleOk with freshTaskId := "T1" }

/-- `tasks/cancel` for task `T1`. -/
def cancelOp : Op :=
  .rpc { method := "tasks/cancel", params := some { id := some "T1" } } {}

/-- Screenshot request with a directly attached payment payload from
wallet `0xABC`. -/
def paidScreenshotMsg : Message :=
  { parts := [.text "https://example.com"],
    metadata := { paymentPayload := some { fromW := some "0xABC",
                                           network := some "eip155:8453" } } }

/-- `message/send` carrying `paidScreenshotMsg`; the paid path runs for the
new task `T1` and the executor succeeds. -/
def paidScreenshotOp : Op :=
  .rpc { method := "message/send",
         params := some { message := some paidScreenshotMsg } }
       { oracleOk with freshTaskId := "T1" }

/-- Correlated resubmission for task `T1`: `payment-submitted` status and a
fresh payload, sent after `T1` is already completed. -/
def resubmitMsg : Message :=
  { parts := [.text "https://example.com"], taskId := some "T1",
    metadata := { paymentStatus := some "payment-submitted",
                  paymentPayload := some { fromW := some "0xABC" } } }

def resubmitOp : Op :=
  .rpc { method := "message/send",
         params := some { message := some resubmitMsg } }
       { oracleOk with freshTaskId := "T2" }

/-- The params of `resubmitOp`, for invoking `handleMessageSend` directly. -/
def resubmitParams : RpcParams := { message := some resubmitMsg }

/-- Session-based reuse: same screenshot request with only
`x402.siwx.wallet` set (no payment). -/
def siwxReuseMsg : Message :=
  { parts := [.text "https://example.com"],
    metadata := { siwxWallet := some "0xABC" } }

def siwxReuseOp : Op :=
  .rpc { method := "message/send",
         params := some { message := some siwxReuseMsg } }
       { oracleOk with freshTaskId := "T2" }

/-- `POST /x402/pdf` with a payment header and payer `0xabc` (executor
succeeds). -/
def pdfRestOp : Op :=
  .postPdf (some "0xSIG") none
    (some { markdown := some "# x", payer := some "0xabc" }) none oracleOk

/-- `message/send` request whose header names the v0.1 extension URI and
whose text leads to the payment-required path. -/
def v01PayReqRequest : RpcRequest :=
  { method := "message/send", extHeader := uriV01,
    params := some { message := some { parts := [.text "https://example.com"] } } }

/-- The extension-activation echo rule (the computation at the top of
`handleJsonRpc`): when the request header contains a recognised extension
URI substring, echo the v0.1 URI if the header names it, otherwise the
v0.2 URI; no header otherwise. -/
def echoHeader (h : String) : Option String :=
  if strIncludes h "x402" || strIncludes h "google-agentic-commerce" ||
     strIncludes h "google-a2a" then
    some (if strIncludes h uriV01 then uriV01 else uriV02)
  else none

/-- The response that carries the payment-requirements task: a result task
in `input-required` whose status message metadata carries
`x402.payment.status = payment-required`. -/
def PaymentRequiredResult (r : RpcResponse) : Prop :=
  ∃ t, r.outcome = .result t ∧ t.state = "input-required" ∧
    t.statusMessage.map (fun sm => sm.metadata.paymentStatus) =
      some (some "payment-required")

/-- A response's header discipline: either the header is exactly the value
`hdr` computed by the echo rule, or the response is the
payment-requirements one and the header is the v0.2 URI. -/
def EchoOk (hdr : Option String) (r : RpcResponse) : Prop :=
  r.header = hdr ∨ (r.header = some uriV02 ∧ PaymentRequiredResult r)

/-! # Theorems

## Association-list and state-mutator lemmas -/

theorem alistGet_set_self {α : Type} (l : List (String × α)) (k : String) (v : α) :
    alistGet (alistSet l k v) k = some v := by
  induction l with
  | nil => simp [alistSet, alistGet]
  | cons p t ih =>
    obtain ⟨k', v'⟩ := p
    by_cases h : k' = k
    · simp [alistSet, h, alistGet]
    · simp [alistSet, h, alistGet, ih]

theorem alistGet_set_ne {α : Type} (l : List (String × α)) (k k' : String) (v : α)
    (h : k' ≠ k) : alistGet (alistSet l k v) k' = alistGet l k' := by
  have hke : ¬ k = k' := fun hh => h hh.symm
  induction l with
  | nil => simp [alistSet, alistGet, hke]
  | cons p t ih =>
    obtain ⟨k'', v''⟩ := p
    by_cases h2 : k'' = k
    · subst h2; simp [alistSet, alistGet, hke]
    · simp [alistSet, alistGet, h2, ih]

@[simp] theorem pushEvent_log (σ : ServerState) (e : Event) :
    (pushEvent σ e).paymentLog = σ.paymentLog ++ [e] := rfl

@[simp] theorem pushEvent_sessions (σ : ServerState) (e : Event) :
    (pushEvent σ e).siwxSessions = σ.siwxSessions := rfl

@[simp] theorem pushEvent_getTask (σ : ServerState) (e : Event) (id : String) :
    getTask (pushEvent σ e) id = getTask σ id := rfl

@[simp] theorem record_log (σ : ServerState) (w s : String) (n : Nat) :
    (recordSiwxPayment σ w s n).paymentLog = σ.paymentLog := rfl

@[simp] theorem record_sessions (σ : ServerState) (w s : String) (n : Nat) :
    (recordSiwxPayment σ w s n).siwxSessions = recordSession σ.siwxSessions w s n := rfl

@[simp] theorem record_getTask (σ : ServerState) (w s : String) (n : Nat) (id : String) :
    getTask (recordSiwxPayment σ w s n) id = getTask σ id := rfl

@[simp] theorem createTask_log (σ : ServerState) (id ctx st : String)
    (m : Option Message) (now : Nat) :
    (createTask σ id ctx st m now).paymentLog = σ.paymentLog := rfl

@[simp] theorem createTask_sessions (σ : ServerState) (id ctx st : String)
    (m : Option Message) (now : Nat) :
    (createTask σ id ctx st m now).siwxSessions = σ.siwxSessions := rfl

theorem createTask_getTask_self (σ : ServerState) (id ctx st : String)
    (m : Option Message) (now : Nat) :
    getTask (createTask σ id ctx st m now) id =
      some { id := id, contextId := ctx, state := st, statusTimestamp := now,
             statusMessage := m } := by
  simp [createTask, getTask, alistGet_set_self]

@[simp] theorem updateTask_log (σ : ServerState) (id st : String)
    (m : Option Message) (p : Option (TaskMeta → TaskMeta)) (now : Nat) :
    (updateTask σ id st m p now).paymentLog = σ.paymentLog := by
  unfold updateTask; cases getTask σ id <;> rfl

@[simp] theorem updateTask_sessions (σ : ServerState) (id st : String)
    (m : Option Message) (p : Option (TaskMeta → TaskMeta)) (now : Nat) :
    (updateTask σ id st m p now).siwxSessions = σ.siwxSessions := by
  unfold updateTask; cases getTask σ id <;> rfl

theorem updateTask_getTask_self (σ : ServerState) (id st : String)
    (m : Option Message) (p : Option (TaskMeta → TaskMeta)) (now : Nat) :
    getTask (updateTask σ id st m p now) id =
      (getTask σ id).map (fun t =>
        { t with state := st, statusTimestamp := now, statusMessage := m,
                 metadata := match p with
                   | some f => f t.metadata
                   | none => t.metadata }) := by
  unfold updateTask
  cases h : getTask σ id with
  | none => simp [h]
  | some t => simp [getTask, alistGet_set_self]

@[simp] theorem pushHistory_log (σ : ServerState) (id : String) (m : Message) :
    (pushHistory σ id m).paymentLog = σ.paymentLog := by
  unfold pushHistory; cases getTask σ id <;> rfl

@[simp] theorem pushHistory_sessions (σ : ServerState) (id : String) (m : Message) :
    (pushHistory σ id m).siwxSessions = σ.siwxSessions := by
  unfold pushHistory; cases getTask σ id <;> rfl

theorem pushHistory_getTask_self (σ : ServerState) (id : String) (m : Message) :
    getTask (pushHistory σ id m) id =
      (getTask σ id).map (fun t => { t with history := t.history ++ [m] }) := by
  unfold pushHistory
  cases h : getTask σ id with
  | none => simp [h]
  | some t => simp [getTask, alistGet_set_self]

@[simp] theorem setTaskMeta_log (σ : ServerState) (id : String) (f : TaskMeta → TaskMeta) :
    (setTaskMeta σ id f).paymentLog = σ.paymentLog := by
  unfold setTaskMeta; cases getTask σ id <;> rfl

@[simp] theorem setTaskMeta_sessions (σ : ServerState) (id : String) (f : TaskMeta → TaskMeta) :
    (setTaskMeta σ id f).siwxSessions = σ.siwxSessions := by
  unfold setTaskMeta; cases getTask σ id <;> rfl

theorem setTaskMeta_getTask_self (σ : ServerState) (id : String)
    (f : TaskMeta → TaskMeta) :
    getTask (setTaskMeta σ id f) id =
      (getTask σ id).map (fun t => { t with metadata := f t.metadata }) := by
  unfold setTaskMeta
  cases h : getTask σ id with
  | none => simp [h]
  | some t => simp [getTask, alistGet_set_self]

@[simp] theorem sessionHas_pushEvent (σ : ServerState) (e : Event) (w sk : String) :
    sessionHas (pushEvent σ e) w sk = sessionHas σ w sk := rfl

@[simp] theorem sessionHas_createTask (σ : ServerState) (id ctx st : String)
    (m : Option Message) (now : Nat) (w sk : String) :
    sessionHas (createTask σ id ctx st m now) w sk = sessionHas σ w sk := rfl

@[simp] theorem sessionHas_updateTask (σ : ServerState) (id st : String)
    (m : Option Message) (p : Option (TaskMeta → TaskMeta)) (now : Nat) (w sk : String) :
    sessionHas (updateTask σ id st m p now) w sk = sessionHas σ w sk := by
  unfold updateTask; cases getTask σ id <;> rfl

@[simp] theorem sessionHas_pushHistory (σ : ServerState) (id : String) (m : Message)
    (w sk : String) :
    sessionHas (pushHistory σ id m) w sk = sessionHas σ w sk := by
  unfold pushHistory; cases getTask σ id <;> rfl

@[simp] theorem sessionHas_setTaskMeta (σ : ServerState) (id : String)
    (f : TaskMeta → TaskMeta) (w sk : String) :
    sessionHas (setTaskMeta σ id f) w sk = sessionHas σ w sk := by
  unfold setTaskMeta; cases getTask σ id <;> rfl

/-- A session pair present after `recordSession` was either already present
or is exactly the recorded (lowercased wallet, skill) pair. -/
theorem sessionHas_record (sessions : List (String × SiwxSession))
    (ww sk : String) (now : Nat) (w' sk' : String)
    (h : sessionHasMap (recordSession sessions ww sk now) w' sk' = true) :
    sessionHasMap sessions w' sk' = true ∨ (w' = lowerStr ww ∧ sk' = sk) := by
  unfold sessionHasMap at h ⊢
  simp only [recordSession] at h
  by_cases hw : w' = lowerStr ww
  · subst hw
    rw [alistGet_set_self] at h
    cases halist : alistGet sessions (lowerStr ww) with
    | none =>
      right
      refine ⟨rfl, ?_⟩
      rw [halist] at h
      simp only [Option.getD_none] at h
      simpa using h
    | some sess =>
      rw [halist] at h
      simp only [Option.getD_some] at h
      by_cases hc : sess.paidSkills.contains sk = true
      · rw [if_pos hc] at h
        left; simpa using h
      · rw [if_neg hc] at h
        have h2 : sess.paidSkills.contains sk' = true ∨ sk' = sk := by
          simpa using h
        rcases h2 with h1 | h1
        · left; simpa using h1
        · right; exact ⟨rfl, h1⟩
  · rw [alistGet_set_ne _ _ _ _ hw] at h
    left; exact h

theorem countEvents_append (a b : List Event) (ty tid : String) :
    countEvents (a ++ b) ty tid = countEvents a ty tid + countEvents b ty tid := by
  simp [countEvents, List.filter_append]

/-! ## Paid-execution characterization -/

/-- Log, session, task-state and receipt footprint of one paid execution. -/
theorem handlePaidExecution_spec (σ : ServerState) (hdr : Option String)
    (tid ctx : String) (req : ParsedRequest) (payload : Option PayArg)
    (msg : Message) (o : Oracle) :
    ((handlePaidExecution σ hdr tid ctx req payload msg o).1).paymentLog =
        σ.paymentLog ++
          paidDelta tid req (paidPayer payload msg) (paidNetwork payload msg) o ∧
    ((handlePaidExecution σ hdr tid ctx req payload msg o).1).siwxSessions =
        (if paidPayer payload msg ≠ "unknown"
         then recordSession σ.siwxSessions (paidPayer payload msg) req.skill o.now
         else σ.siwxSessions) ∧
    (getTask ((handlePaidExecution σ hdr tid ctx req payload msg o).1) tid).map
        Task.state =
      some (match o.exec with | .ok _ => "completed" | .error _ => "failed") ∧
    (getTask ((handlePaidExecution σ hdr tid ctx req payload msg o).1) tid).map
        (fun t => t.metadata.receipts) =
      some (some [match o.exec with
        | .ok _ => { success := true, transaction := some ("0x" ++ o.txSuffix),
                     network := paidNetwork payload msg,
                     payer := some (paidPayer payload msg) }
        | .error e => { success := false, network := paidNetwork payload msg,
                        errorReason := some e }]) := by
  by_cases hpw : paidPayer payload msg ≠ "unknown" <;>
  cases hget : getTask σ tid <;>
  cases hex : o.exec <;>
    simp [handlePaidExecution, paidDelta, hget, hex, hpw,
          createTask_getTask_self, updateTask_getTask_self,
          pushHistory_getTask_self, setTaskMeta_getTask_self,
          alistGet_set_self, List.append_assoc]

/-! ## GoodStep combinators and invariant preservation -/

theorem goodStep_of_eq (σ σ' : ServerState)
    (hlog : σ'.paymentLog = σ.paymentLog)
    (hsess : σ'.siwxSessions = σ.siwxSessions) : GoodStep σ σ' := by
  refine ⟨[], by simpa using hlog, ?_, ?_⟩
  · intro w sk hw
    left
    unfold sessionHas at hw ⊢
    rw [hsess] at hw
    exact hw
  · intro k hk
    exact absurd hk (by simp)

theorem goodStep_nonsettled (σ σ' : ServerState) (δ : List Event)
    (hlog : σ'.paymentLog = σ.paymentLog ++ δ)
    (hδ : ∀ e ∈ δ, e.type ≠ "payment-settled")
    (hsess : σ'.siwxSessions = σ.siwxSessions) : GoodStep σ σ' := by
  refine ⟨δ, hlog, ?_, ?_⟩
  · intro w sk hw
    left
    unfold sessionHas at hw ⊢
    rw [hsess] at hw
    exact hw
  · intro k hk hset
    exact absurd hset (hδ _ (List.get_mem δ k hk))

theorem goodStep_received (σ σ' : ServerState) (tid sk payer net : String)
    (ts : Nat) (txh am : Option String) (more : List Event)
    (hlog : σ'.paymentLog = σ.paymentLog ++
      ({ type := "payment-received", taskId := tid, skill := some sk,
         wallet := some payer, network := some net, txHash := txh,
         amount := am, timestamp := ts } :: more))
    (hmore : ∀ e ∈ more, e.type = "payment-settled" → e.taskId = tid)
    (hsess : σ'.siwxSessions = σ.siwxSessions ∨
      ∃ n2, σ'.siwxSessions = recordSession σ.siwxSessions payer sk n2) :
    GoodStep σ σ' := by
  refine ⟨_, hlog, ?_, ?_⟩
  · intro w sk' hw
    unfold sessionHas at hw
    rcases hsess with he | ⟨n2, he⟩
    · left
      unfold sessionHas
      rw [he] at hw
      exact hw
    · rw [he] at hw
      rcases sessionHas_record _ _ _ _ _ _ hw with h1 | ⟨hww, hsk⟩
      · left; exact h1
      · right
        refine ⟨_, List.mem_cons_self _ _, rfl, by rw [hsk], payer, rfl, hww.symm⟩
  · intro k hk hset
    match k, hk, hset with
    | 0, hk, hset => exact absurd hset (by simp)
    | (j+1), hk, hset =>
      refine ⟨0, by simp, Nat.succ_pos _, rfl, ?_⟩
      have hmem := List.get_mem more j (by simpa using hk)
      have := hmore _ hmem hset
      simpa using this.symm

theorem sessionsBacked_goodStep (σ σ' : ServerState)
    (h : sessionsBacked σ) (hg : GoodStep σ σ') : sessionsBacked σ' := by
  rcases hg with ⟨δ, hlog, hs, -⟩
  intro w sk hw
  rcases hs w sk hw with h1 | ⟨e, he, hrest⟩
  · rcases h w sk h1 with ⟨e, he, hrest⟩
    exact ⟨e, by rw [hlog]; exact List.mem_append_left _ he, hrest⟩
  · exact ⟨e, by rw [hlog]; exact List.mem_append_right _ he, hrest⟩

theorem settledBacked_append (L δ : List Event) (hL : settledBacked L)
    (hδ : ∀ k, ∀ (hk : k < δ.length),
       (δ.get ⟨k, hk⟩).type = "payment-settled" →
       ∃ k', ∃ (hk' : k' < δ.length), k' < k ∧
         (δ.get ⟨k', hk'⟩).type = "payment-received" ∧
         (δ.get ⟨k', hk'⟩).taskId = (δ.get ⟨k, hk⟩).taskId) :
    settledBacked (L ++ δ) := by
  intro j hj hset
  by_cases hjL : j < L.length
  · have hg : (L ++ δ).get ⟨j, hj⟩ = L.get ⟨j, hjL⟩ := List.get_append j hjL
    rw [hg] at hset ⊢
    rcases hL j hjL hset with ⟨i, hi, hlt, hty, htk⟩
    have hib : i < (L ++ δ).length := by simp; omega
    have hgi : (L ++ δ).get ⟨i, hib⟩ = L.get ⟨i, hi⟩ := List.get_append i hi
    exact ⟨i, hib, hlt, by rw [hgi]; exact hty, by rw [hgi]; exact htk⟩
  · have hLle : L.length ≤ j := Nat.le_of_not_lt hjL
    have hjd : j - L.length < δ.length := by
      have := hj; simp at this; omega
    have hg : (L ++ δ).get ⟨j, hj⟩ = δ.get ⟨j - L.length, hjd⟩ := by
      rw [List.get_append_right] <;> omega
    rw [hg] at hset ⊢
    rcases hδ _ hjd hset with ⟨k', hk', hlt, hty, htk⟩
    have hib : L.length + k' < (L ++ δ).length := by simp; omega
    have hgi : (L ++ δ).get ⟨L.length + k', hib⟩ = δ.get ⟨k', hk'⟩ := by
      rw [List.get_append_right] <;> simp <;> omega
    refine ⟨L.length + k', hib, by omega, by rw [hgi]; exact hty,
            by rw [hgi]; exact htk⟩

theorem settledBacked_goodStep (σ σ' : ServerState)
    (h : settledBacked σ.paymentLog) (hg : GoodStep σ σ') :
    settledBacked σ'.paymentLog := by
  rcases hg with ⟨δ, hlog, -, hδ⟩
  rw [hlog]
  exact settledBacked_append _ _ h hδ

/-! ## GoodStep for every request handler -/

theorem freeExec_log (σ : ServerState) (hdr : Option String) (tid ctx : String)
    (req : ParsedRequest) (m : Message) (o : Oracle) :
    ((handleFreeExecution σ hdr tid ctx req m o).1).paymentLog = σ.paymentLog := by
  unfold handleFreeExecution
  cases hex : o.exec <;> simp [hex]

theorem freeExec_sessions (σ : ServerState) (hdr : Option String) (tid ctx : String)
    (req : ParsedRequest) (m : Message) (o : Oracle) :
    ((handleFreeExecution σ hdr tid ctx req m o).1).siwxSessions = σ.siwxSessions := by
  unfold handleFreeExecution
  cases hex : o.exec <;> simp [hex]

theorem goodStep_freeExec (σ : ServerState) (hdr : Option String) (tid ctx : String)
    (req : ParsedRequest) (m : Message) (o : Oracle) :
    GoodStep σ ((handleFreeExecution σ hdr tid ctx req m o).1) :=
  goodStep_of_eq _ _ (freeExec_log σ hdr tid ctx req m o)
    (freeExec_sessions σ hdr tid ctx req m o)

theorem goodStep_paidExec (σ : ServerState) (hdr : Option String) (tid ctx : String)
    (req : ParsedRequest) (payload : Option PayArg) (m : Message) (o : Oracle) :
    GoodStep σ ((handlePaidExecution σ hdr tid ctx req payload m o).1) := by
  obtain ⟨hlog, hsess, -, -⟩ := handlePaidExecution_spec σ hdr tid ctx req payload m o
  refine goodStep_received σ _ tid req.skill (paidPayer payload m)
    (paidNetwork payload m) o.now none none
    ({ type := "payment-verified", taskId := tid, skill := some req.skill,
       wallet := some (paidPayer payload m),
       network := some (paidNetwork payload m), timestamp := o.now } ::
     (match o.exec with
      | .ok _ => [{ type := "payment-settled", taskId := tid,
                    skill := some req.skill, txHash := some ("0x" ++ o.txSuffix),
                    wallet := some (paidPayer payload m),
                    network := some (paidNetwork payload m),
                    timestamp := o.now }]
      | .error _ => [])) ?_ ?_ ?_
  · simpa [paidDelta] using hlog
  · intro e he hset
    rcases List.mem_cons.mp he with rfl | he2
    · simp at hset
    · cases hex : o.exec <;> rw [hex] at he2 <;> simp at he2
      subst he2
      rfl
  · by_cases hpw : paidPayer payload m ≠ "unknown"
    · right
      exact ⟨o.now, by rw [hsess, if_pos hpw]⟩
    · left
      rw [hsess, if_neg hpw]

theorem goodStep_newMessage (σ : ServerState) (hdr : Option String) (m : Message)
    (txt : String) (params : Option RpcParams) (o : Oracle) :
    GoodStep σ ((handleNewMessage σ hdr m txt params o).1) := by
  simp only [handleNewMessage]
  split
  · exact goodStep_paidExec _ _ _ _ _ _ _ _
  · split
    · refine goodStep_nonsettled σ _
        [{ type := "siwx-access", taskId := o.freshTaskId,
           skill := some (parseRequest txt.data).skill,
           wallet := m.metadata.siwxWallet, network := none,
           timestamp := o.now }] ?_ ?_ ?_
      · rw [freeExec_log, pushEvent_log]
      · intro e he
        rcases List.mem_singleton.mp he with rfl
        simp
      · rw [freeExec_sessions, pushEvent_sessions]
    · split
      · rename_i payReq heq
        refine goodStep_nonsettled σ _
          [{ type := "payment-required", taskId := o.freshTaskId,
             skill := some (parseRequest txt.data).skill,
             amount := (payReq.accepts.head?).map AcceptEntry.price,
             network := none, timestamp := o.now }] ?_ ?_ ?_
        · simp
        · intro e he
          rcases List.mem_singleton.mp he with rfl
          simp
        · simp
      · exact goodStep_freeExec _ _ _ _ _ _ _

theorem goodStep_correlated (σ : ServerState) (hdr : Option String) (m : Message)
    (txt : String) (params : Option RpcParams) (o : Oracle) :
    GoodStep σ ((handleCorrelated σ hdr m txt params o).1) := by
  simp only [handleCorrelated]
  split
  · split
    · exact goodStep_paidExec _ _ _ _ _ _ _ _
    · exact goodStep_newMessage _ _ _ _ _ _
  · exact goodStep_newMessage _ _ _ _ _ _

theorem goodStep_messageBody (σ : ServerState) (hdr : Option String) (m : Message)
    (txt : String) (params : Option RpcParams) (o : Oracle) :
    GoodStep σ ((handleMessageBody σ hdr m txt params o).1) := by
  simp only [handleMessageBody]
  split
  · split
    · rename_i existingTask heq
      refine goodStep_nonsettled σ _
        [{ type := "payment-rejected", taskId := m.taskId.getD "",
           skill := existingTask.metadata.skill, timestamp := o.now }] ?_ ?_ ?_
      · simp
      · intro e he
        rcases List.mem_singleton.mp he with rfl
        simp
      · simp
    · exact goodStep_correlated _ _ _ _ _ _
  · exact goodStep_correlated _ _ _ _ _ _

theorem goodStep_messageSend (σ : ServerState) (hdr : Option String)
    (params : Option RpcParams) (o : Oracle) :
    GoodStep σ ((handleMessageSend σ hdr params o).1) := by
  simp only [handleMessageSend]
  split
  · exact goodStep_of_eq _ _ rfl rfl
  · split
    · exact goodStep_of_eq _ _ rfl rfl
    · split
      · exact goodStep_of_eq _ _ rfl rfl
      · exact goodStep_messageBody _ _ _ _ _ _

theorem tasksGet_state (σ : ServerState) (hdr : Option String)
    (params : Option RpcParams) : (handleTasksGet σ hdr params).1 = σ := by
  simp only [handleTasksGet]
  split <;> rfl

theorem goodStep_tasksCancel (σ : ServerState) (hdr : Option String)
    (params : Option RpcParams) (o : Oracle) :
    GoodStep σ ((handleTasksCancel σ hdr params o).1) := by
  simp only [handleTasksCancel]
  split
  · exact goodStep_of_eq _ _ rfl rfl
  · split
    · exact goodStep_of_eq _ _ rfl rfl
    · exact goodStep_of_eq _ _ (by simp) (by simp)

theorem goodStep_jsonRpc (σ : ServerState) (req : RpcRequest) (o : Oracle) :
    GoodStep σ ((handleJsonRpc σ req o).1) := by
  simp only [handleJsonRpc]
  split
  · exact goodStep_of_eq _ _ rfl rfl
  · split
    · exact goodStep_messageSend _ _ _ _
    · split
      · rw [tasksGet_state]
        exact goodStep_of_eq _ _ rfl rfl
      · split
        · exact goodStep_tasksCancel _ _ _ _
        · exact goodStep_of_eq _ _ rfl rfl

theorem goodStep_postScreenshot (σ : ServerState) (s x : Option String)
    (b : Option RestBody) (q n : Option String) (o : Oracle) :
    GoodStep σ ((postX402Screenshot σ s x b q n o).1) := by
  simp only [postX402Screenshot]
  split
  · exact goodStep_of_eq _ _ rfl rfl
  · split
    · exact goodStep_of_eq _ _ rfl rfl
    · refine goodStep_received σ _ o.freshTaskId "screenshot"
        (jsOrStr (b.bind RestBody.payer) "http-x402-client")
        (jsOrStr (b.bind RestBody.network) (jsOrStr n baseCaip2))
        o.now none none
        (match o.exec with
         | .ok _ => [{ type := "payment-settled", taskId := o.freshTaskId,
                       skill := some "screenshot",
                       txHash := some ("0x" ++ o.txSuffix),
                       wallet := some (jsOrStr (b.bind RestBody.payer) "http-x402-client"),
                       network := some (jsOrStr (b.bind RestBody.network) (jsOrStr n baseCaip2)),
                       timestamp := o.now }]
         | .error _ => []) ?_ ?_ ?_
      · by_cases hpw : jsOrStr (b.bind RestBody.payer) "http-x402-client" ≠ "http-x402-client" <;>
          cases hex : o.exec <;> simp [hex, hpw, List.append_assoc]
      · intro e he hset
        cases hex : o.exec <;> rw [hex] at he <;> simp at he
        subst he
        rfl
      · by_cases hpw : jsOrStr (b.bind RestBody.payer) "http-x402-client" ≠ "http-x402-client"
        · right
          refine ⟨o.now, ?_⟩
          cases hex : o.exec <;> simp [hex, hpw]
        · left
          cases hex : o.exec <;> simp [hex, hpw]

theorem goodStep_postPdf (σ : ServerState) (s x : Option String)
    (b : Option RestBody) (n : Option String) (o : Oracle) :
    GoodStep σ ((postX402Pdf σ s x b n o).1) := by
  simp only [postX402Pdf]
  split
  · exact goodStep_of_eq _ _ rfl rfl
  · split
    · exact goodStep_of_eq _ _ rfl rfl
    · refine goodStep_received σ _ o.freshTaskId "markdown-to-pdf"
        (jsOrStr (b.bind RestBody.payer) "http-x402-client")
        (jsOrStr (b.bind RestBody.network) (jsOrStr n baseCaip2))
        o.now none none
        (match o.exec with
         | .ok _ => [{ type := "payment-settled", taskId := o.freshTaskId,
                       skill := some "markdown-to-pdf",
                       txHash := some ("0x" ++ o.txSuffix),
                       wallet := some (jsOrStr (b.bind RestBody.payer) "http-x402-client"),
                       network := some (jsOrStr (b.bind RestBody.network) (jsOrStr n baseCaip2)),
                       timestamp := o.now }]
         | .error _ => []) ?_ ?_ ?_
      · cases hex : o.exec <;> simp [hex, List.append_assoc]
      · intro e he hset
        cases hex : o.exec <;> rw [hex] at he <;> simp at he
        subst he
        rfl
      · left
        cases hex : o.exec <;> simp [hex]

theorem goodStep_postAi (σ : ServerState) (s x : Option String)
    (b : Option RestBody) (n : Option String) (o : Oracle) :
    GoodStep σ ((postX402AiAnalysis σ s x b n o).1) := by
  simp only [postX402AiAnalysis]
  split
  · exact goodStep_of_eq _ _ rfl rfl
  · split
    · exact goodStep_of_eq _ _ rfl rfl
    · refine goodStep_received σ _ o.freshTaskId "ai-analysis"
        (jsOrStr (b.bind RestBody.payer) "http-x402-client")
        (jsOrStr (b.bind RestBody.network) (jsOrStr n baseCaip2))
        o.now none none
        (match o.exec with
         | .ok _ => [{ type := "payment-settled", taskId := o.freshTaskId,
                       skill := some "ai-analysis",
                       txHash := some ("0x" ++ o.txSuffix),
                       wallet := some (jsOrStr (b.bind RestBody.payer) "http-x402-client"),
                       network := some (jsOrStr (b.bind RestBody.network) (jsOrStr n baseCaip2)),
                       timestamp := o.now }]
         | .error _ => []) ?_ ?_ ?_
      · by_cases hpw : jsOrStr (b.bind RestBody.payer) "http-x402-client" ≠ "http-x402-client" <;>
          cases hex : o.exec <;> simp [hex, hpw, List.append_assoc]
      · intro e he hset
        cases hex : o.exec <;> rw [hex] at he <;> simp at he
        subst he
        rfl
      · by_cases hpw : jsOrStr (b.bind RestBody.payer) "http-x402-client" ≠ "http-x402-client"
        · right
          refine ⟨o.now, ?_⟩
          cases hex : o.exec <;> simp [hex, hpw]
        · left
          cases hex : o.exec <;> simp [hex, hpw]

theorem goodStep_postHtml (σ : ServerState) (b : Option RestBody) (o : Oracle) :
    GoodStep σ ((postX402Html σ b o).1) := by
  simp only [postX402Html]
  split
  · exact goodStep_of_eq _ _ rfl rfl
  · split <;> exact goodStep_of_eq _ _ rfl rfl

theorem goodStep_gemini (σ : ServerState) (b : Option RestBody) (o : Oracle) :
    GoodStep σ ((postGemini σ b o).1) := by
  simp only [postGemini]
  split
  · exact goodStep_of_eq _ _ rfl rfl
  · split
    · exact goodStep_of_eq _ _ rfl rfl
    · split <;> exact goodStep_of_eq _ _ rfl rfl

/-- Every request preserves the log/session footprint discipline. -/
theorem goodStep_step (σ : ServerState) (op : Op) : GoodStep σ (step σ op) := by
  cases op with
  | rpc req o => exact goodStep_jsonRpc σ req o
  | postScreenshot s x b q n o => exact goodStep_postScreenshot σ s x b q n o
  | postPdf s x b n o => exact goodStep_postPdf σ s x b n o
  | postAi s x b n o => exact goodStep_postAi σ s x b n o
  | postHtml b o => exact goodStep_postHtml σ b o
  | gemini b o => exact goodStep_gemini σ b o

theorem sessionsBacked_init : sessionsBacked initState := by
  intro w sk hw
  simp [sessionHas, sessionHasMap, initState, alistGet] at hw

theorem settledBacked_init : settledBacked (initState).paymentLog := by
  intro j hj
  exact absurd hj (by simp [initState])

theorem sessionsBacked_run (ops : List Op) : sessionsBacked (run ops) := by
  unfold run
  have h : ∀ (l : List Op) (σ : ServerState), sessionsBacked σ →
      sessionsBacked (l.foldl step σ) := by
    intro l
    induction l with
    | nil => intro σ h; exact h
    | cons op t ih =>
      intro σ h
      exact ih _ (sessionsBacked_goodStep _ _ h (goodStep_step σ op))
  exact h ops initState sessionsBacked_init

theorem settledBacked_run (ops : List Op) : settledBacked (run ops).paymentLog := by
  unfold run
  have h : ∀ (l : List Op) (σ : ServerState), settledBacked σ.paymentLog →
      settledBacked (l.foldl step σ).paymentLog := by
    intro l
    induction l with
    | nil => intro σ h; exact h
    | cons op t ih =>
      intro σ h
      exact ih _ (settledBacked_goodStep _ _ h (goodStep_step σ op))
  exact h ops initState settledBacked_init

/-! ## Claim C1 — terminal states are not protected -/

/-- C1 counterexample: the claim "every subsequent task-store update leaves
a terminal task's state unchanged or errors" is false.  A reachable trace:
a free-skill `message/send` completes task `T1` (state `completed`, which is
terminal), and a subsequent `tasks/cancel` sets its state to `canceled` —
the state regressed from a terminal state. -/
theorem c1_counterexample :
    (getTask (run [freeHtmlOp]) "T1").map Task.state = some "completed" ∧
    terminalState "completed" = true ∧
    (getTask (run [freeHtmlOp, cancelOp]) "T1").map Task.state = some "canceled" ∧
    ¬((getTask (run [freeHtmlOp, cancelOp]) "T1").map Task.state = some "completed") := by
  decide

/-- C1 amended: `updateTask` never refuses a transition — for every stored
task, even one in a terminal state, `updateTask(id, s, …)` sets the state
to `s` unconditionally (and `tasks/cancel` uses it to cancel terminal
tasks, per the counterexample). -/
theorem c1_theorem (σ : ServerState) (id st : String) (msg : Option Message)
    (patch : Option (TaskMeta → TaskMeta)) (now : Nat) (t : Task)
    (h : getTask σ id = some t) (hterm : terminalState t.state = true) :
    (getTask (updateTask σ id st msg patch now) id).map Task.state = some st := by
  rw [updateTask_getTask_self, h]
  rfl

/-- C1 witness: instantiates the amended theorem on the completed task of
the concrete trace. -/
theorem c1_witness :
    (getTask (updateTask (run [freeHtmlOp]) "T1" "working" none none 5) "T1").map
        Task.state = some "working" :=
  c1_theorem (run [freeHtmlOp]) "T1" "working" none none 5 _ rfl (by decide)

/-! ## Claim C5 — the accepts list does not cover the network catalogue -/

/-- C5 counterexample: `GET /x402/screenshot` does answer 402, but its
`accepts` list has 2 entries while the `NETWORKS` catalogue has 3 enabled
networks (Arbitrum One has no entry), so the claimed length equality is
false. -/
theorem c5_counterexample :
    getX402Screenshot.1 = 402 ∧
    getX402Screenshot.2.map (fun pr => pr.accepts.length) = some 2 ∧
    NETWORKS.length = 3 ∧
    ¬(getX402Screenshot.2.map (fun pr => pr.accepts.length) =
        some NETWORKS.length) := by
  decide

/-- C5 amended: each of the three priced GET routes (`/x402/screenshot`,
`/x402/pdf`, `/x402/ai-analysis`) answers 402 with the
payment-requirements body whose `accepts` list has exactly two entries —
Base and SKALE Europa — while the network catalogue has three entries. -/
theorem c5_theorem :
    getX402Screenshot.1 = 402 ∧ getX402Pdf.1 = 402 ∧ getX402AiAnalysis.1 = 402 ∧
    getX402Screenshot.2.map (fun pr => pr.accepts.map AcceptEntry.network) =
      some [baseCaip2, skaleCaip2] ∧
    getX402Pdf.2.map (fun pr => pr.accepts.map AcceptEntry.network) =
      some [baseCaip2, skaleCaip2] ∧
    getX402AiAnalysis.2.map (fun pr => pr.accepts.map AcceptEntry.network) =
      some [baseCaip2, skaleCaip2] ∧
    NETWORKS.length = 3 := by
  decide

/-! ## Claim C9 — the snapshot loader is total -/

/-- C9: `loadStats` never fails: an absent file, an empty (or
whitespace-only) file, and a file whose JSON parse throws all yield the
fresh state with the current wall-clock epoch, and startup continues (the
loader is a total function). -/
theorem c9_theorem :
    (∀ (parse : String → Option PersistedStats) (now : Nat),
       loadStats none parse now = freshStats now) ∧
    (∀ (parse : String → Option PersistedStats) (now : Nat),
       loadStats (some "") parse now = freshStats now) ∧
    (∀ (raw : String) (parse : String → Option PersistedStats) (now : Nat),
       parse raw = none → loadStats (some raw) parse now = freshStats now) := by
  refine ⟨fun parse now => rfl, fun parse now => rfl, fun raw parse now hp => ?_⟩
  simp only [loadStats]
  by_cases h : (trimJS raw.data).isEmpty = true
  · rw [if_pos h]
  · rw [if_neg h, hp]

/-- C9 witness: a malformed snapshot (`parse` throwing) on a concrete
input yields the fresh state. -/
theorem c9_witness :
    loadStats (some "not valid json") (fun _ => none) 42 = freshStats 42 :=
  c9_theorem.2.2 "not valid json" (fun _ => none) 42 rfl

/-! ## Claim C3 — sessions are not equivalent to settled events -/

/-- C3 counterexample: one `POST /x402/pdf` with payer `0xabc` appends a
`payment-settled` event for (`0xabc`, `markdown-to-pdf`) but the pdf route
never records an SIWx session, so the settled-iff fails (right-to-left) at
a reachable state. -/
theorem c3_counterexample :
    ¬ sessionIffSettled (run [pdfRestOp]) "0xabc" "markdown-to-pdf" := by
  decide

/-- C3 amended: only one direction survives, and against
`payment-received` rather than `payment-settled`: every wallet × skill pair
in the session store is backed by a `payment-received` event for that skill
whose wallet lowercases to the session key.  (The original iff fails in
both directions: the pdf REST route settles without recording a session,
and the paid path records the session before the executor runs, so an
executor failure leaves a session with no settled event.) -/
theorem c3_theorem (ops : List Op) (w sk : String)
    (h : sessionHas (run ops) w sk = true) :
    ∃ e ∈ (run ops).paymentLog, e.type = "payment-received" ∧
      e.skill = some sk ∧ ∃ ww, e.wallet = some ww ∧ lowerStr ww = w :=
  sessionsBacked_run ops w sk h

/-- C3 witness: the session recorded by a paid screenshot execution is
backed by its `payment-received` event. -/
theorem c3_witness :
    ∃ e ∈ (run [paidScreenshotOp]).paymentLog, e.type = "payment-received" ∧
      e.skill = some "screenshot" ∧
      ∃ ww, e.wallet = some ww ∧ lowerStr ww = "0xabc" :=
  c3_theorem [paidScreenshotOp] "0xabc" "screenshot" (by decide)

/-! ## Claim C6 — received before settled -/

/-- C6 counterexample: after a completed paid task is resubmitted (the
single-payment hole), the log holds `received₁ ver₁ settled₁ received₂ ver₂
settled₂` for the same task, and `received₂` (index 3) does not precede
`settled₁` (index 2) — the claim quantifying over any two events is
false. -/
theorem c6_counterexample :
    ¬ receivedBeforeSettled (run [paidScreenshotOp, resubmitOp]).paymentLog := by
  decide

/-- C6 amended: every `payment-settled` event is preceded in the log by a
`payment-received` event of the same task (the per-settlement ordering the
code does maintain; the universal two-event ordering fails once a task is
paid twice). -/
theorem c6_theorem (ops : List Op) (j : Nat)
    (hj : j < (run ops).paymentLog.length)
    (h : ((run ops).paymentLog.get ⟨j, hj⟩).type = "payment-settled") :
    ∃ i, ∃ (hi : i < (run ops).paymentLog.length), i < j ∧
      ((run ops).paymentLog.get ⟨i, hi⟩).type = "payment-received" ∧
      ((run ops).paymentLog.get ⟨i, hi⟩).taskId =
        ((run ops).paymentLog.get ⟨j, hj⟩).taskId :=
  settledBacked_run ops j hj h

/-- C6 witness: the settled event of one paid screenshot execution (index
2) is backed by an earlier received event. -/
theorem c6_witness :
    ∃ i, ∃ (hi : i < (run [paidScreenshotOp]).paymentLog.length), i < 2 ∧
      ((run [paidScreenshotOp]).paymentLog.get ⟨i, hi⟩).type = "payment-received" ∧
      ((run [paidScreenshotOp]).paymentLog.get ⟨i, hi⟩).taskId =
        ((run [paidScreenshotOp]).paymentLog.get ⟨2, by decide⟩).taskId :=
  c6_theorem [paidScreenshotOp] 2 (by decide) (by decide)

/-! ## Claim C4 — receipts on completion -/

/-- C4 counterexample: a priced skill (`screenshot`) completed through the
SIWx session path carries no receipts at all — `t.metadata.receipts` is
absent, refuting the claim for the session-based access path it explicitly
includes. -/
theorem c4_counterexample :
    (parseRequest "https://example.com".data).skill = "screenshot" ∧
    (createPaymentRequired "screenshot").isSome = true ∧
    (getTask (run [paidScreenshotOp, siwxReuseOp]) "T2").map Task.state =
      some "completed" ∧
    (getTask (run [paidScreenshotOp, siwxReuseOp]) "T2").map
      (fun t => t.metadata.receipts) = some none := by
  decide

theorem hexTx_ne_empty (s : String) : ("0x" ++ s) ≠ "" := by
  intro h
  have hlen := congrArg String.length h
  rw [String.length_append] at hlen
  rw [show ("0x" : String).length = 2 from rfl,
      show ("" : String).length = 0 from rfl] at hlen
  omega

/-- C4 amended: every task completed through the **paid-execution path**
carries a receipts list `[r]` with `r.success = true` and a non-empty
transaction id; the SIWx free-execution path produces no receipts (see the
counterexample). -/
theorem c4_theorem (σ : ServerState) (hdr : Option String) (tid ctx : String)
    (req : ParsedRequest) (payload : Option PayArg) (msg : Message) (o : Oracle)
    (parts : List Part) (hexec : o.exec = .ok parts) :
    ∃ t, getTask ((handlePaidExecution σ hdr tid ctx req payload msg o).1) tid =
        some t ∧
      t.state = "completed" ∧
      ∃ r, t.metadata.receipts = some [r] ∧ r.success = true ∧
        ∃ tx, r.transaction = some tx ∧ tx ≠ "" := by
  obtain ⟨-, -, hstate, hrec⟩ :=
    handlePaidExecution_spec σ hdr tid ctx req payload msg o
  rw [hexec] at hstate hrec
  cases hget : getTask ((handlePaidExecution σ hdr tid ctx req payload msg o).1) tid with
  | none => rw [hget] at hstate; simp at hstate
  | some t =>
    rw [hget] at hstate hrec
    simp only [Option.map_some'] at hstate hrec
    refine ⟨t, rfl, by simpa using hstate, _, by simpa using hrec, rfl,
            "0x" ++ o.txSuffix, rfl, hexTx_ne_empty _⟩

/-- C4 witness: a concrete successful paid execution yields a success
receipt with a non-empty transaction id. -/
theorem c4_witness :
    ∃ t, getTask ((handlePaidExecution initState none "T1" "C1"
        { skill := "screenshot", url := some "https://example.com" } none
        { parts := [.text "x"] } oracleOk).1) "T1" = some t ∧
      t.state = "completed" ∧
      ∃ r, t.metadata.receipts = some [r] ∧ r.success = true ∧
        ∃ tx, r.transaction = some tx ∧ tx ≠ "" :=
  c4_theorem initState none "T1" "C1"
    { skill := "screenshot", url := some "https://example.com" } none
    { parts := [.text "x"] } oracleOk [.text "ok"] rfl

/-! ## Claim C10 — unknown payer -/

/-- C10: when the payment payload has no `from` field and the message
metadata has no `x402.payer`, the payer defaults to the literal string
`"unknown"`: the `payment-received` event is still appended with wallet
`"unknown"` (not null), no session entry is created, and on executor
success the execution settles normally (task `completed`, one more
`payment-settled` event). -/
theorem c10_theorem (σ : ServerState) (hdr : Option String) (tid ctx : String)
    (req : ParsedRequest) (payload : Option PayArg) (msg : Message) (o : Oracle)
    (hfrom : ∀ p, payload = some p → p.fromW = none)
    (hpayer : msg.metadata.payer = none) :
    ((handlePaidExecution σ hdr tid ctx req payload msg o).1).siwxSessions =
        σ.siwxSessions ∧
    (((handlePaidExecution σ hdr tid ctx req payload msg o).1).paymentLog.drop
        σ.paymentLog.length).head?.map (fun e => (e.type, e.wallet)) =
      some ("payment-received", some "unknown") ∧
    (∀ parts, o.exec = .ok parts →
      (getTask ((handlePaidExecution σ hdr tid ctx req payload msg o).1) tid).map
          Task.state = some "completed" ∧
      countEvents ((handlePaidExecution σ hdr tid ctx req payload msg o).1).paymentLog
          "payment-settled" tid =
        countEvents σ.paymentLog "payment-settled" tid + 1) := by
  have hpw : paidPayer payload msg = "unknown" := by
    unfold paidPayer
    cases hp : payload with
    | none => simp [hpayer, jsOrStr]
    | some p => simp [hfrom p hp, hpayer, jsOrStr]
  obtain ⟨hlog, hsess, hstate, -⟩ :=
    handlePaidExecution_spec σ hdr tid ctx req payload msg o
  refine ⟨?_, ?_, ?_⟩
  · rw [hsess, if_neg]
    simp [hpw]
  · rw [hlog]
    rw [show σ.paymentLog.length = σ.paymentLog.length from rfl,
        List.drop_left]
    simp [paidDelta, hpw]
  · intro parts hex
    constructor
    · rw [hex] at hstate
      simpa using hstate
    · rw [hlog, countEvents_append]
      have hδ : countEvents (paidDelta tid req (paidPayer payload msg)
          (paidNetwork payload msg) o) "payment-settled" tid = 1 := by
        simp [paidDelta, countEvents, hex]
      omega

/-- C10 witness: a concrete paid execution with a `from`-less payload and
no `x402.payer`. -/
theorem c10_witness :
    ((handlePaidExecution initState none "T1" "C1"
        { skill := "screenshot", url := some "https://example.com" }
        (some (.payload { network := some "eip155:8453" }))
        { parts := [.text "x"] } oracleOk).1).siwxSessions =
      initState.siwxSessions ∧
    (((handlePaidExecution initState none "T1" "C1"
        { skill := "screenshot", url := some "https://example.com" }
        (some (.payload { network := some "eip155:8453" }))
        { parts := [.text "x"] } oracleOk).1).paymentLog.drop
        initState.paymentLog.length).head?.map (fun e => (e.type, e.wallet)) =
      some ("payment-received", some "unknown") ∧
    (∀ parts, oracleOk.exec = .ok parts →
      (getTask ((handlePaidExecution initState none "T1" "C1"
          { skill := "screenshot", url := some "https://example.com" }
          (some (.payload { network := some "eip155:8453" }))
          { parts := [.text "x"] } oracleOk).1) "T1").map Task.state =
        some "completed" ∧
      countEvents ((handlePaidExecution initState none "T1" "C1"
          { skill := "screenshot", url := some "https://example.com" }
          (some (.payload { network := some "eip155:8453" }))
          { parts := [.text "x"] } oracleOk).1).paymentLog
          "payment-settled" "T1" =
        countEvents initState.paymentLog "payment-settled" "T1" + 1) :=
  c10_theorem initState none "T1" "C1"
    { skill := "screenshot", url := some "https://example.com" }
    (some (.payload { network := some "eip155:8453" }))
    { parts := [.text "x"] } oracleOk
    (fun p hp => by cases hp; rfl) rfl

/-! ## Claim C2 — single payment per task is not enforced -/

/-- C2 counterexample: task `T1` completes its paid execution (terminal
state, one received/settled pair); a further `message/send` with `taskId
T1` and `payment-submitted` re-enters the paid path: the log gains a second
`payment-received`, `payment-verified` and `payment-settled` event for
`T1`, refuting single-payment-per-task. -/
theorem c2_counterexample :
    (getTask (run [paidScreenshotOp]) "T1").map Task.state = some "completed" ∧
    terminalState "completed" = true ∧
    countEvents (run [paidScreenshotOp]).paymentLog "payment-received" "T1" = 1 ∧
    countEvents (run [paidScreenshotOp, resubmitOp]).paymentLog
      "payment-received" "T1" = 2 ∧
    countEvents (run [paidScreenshotOp, resubmitOp]).paymentLog
      "payment-verified" "T1" = 2 ∧
    countEvents (run [paidScreenshotOp, resubmitOp]).paymentLog
      "payment-settled" "T1" = 2 := by
  decide

theorem parts_not_empty (m : Message) (txt : String)
    (htxt : firstTextPart m.parts = some txt) : m.parts.isEmpty = false := by
  cases hp2 : m.parts with
  | nil => rw [hp2] at htxt; simp [firstTextPart] at htxt
  | cons a l => rfl

theorem countEvents_paidDelta_received (tid : String) (req : ParsedRequest)
    (pw net : String) (o : Oracle) :
    countEvents (paidDelta tid req pw net o) "payment-received" tid = 1 := by
  cases hex : o.exec <;> simp [paidDelta, countEvents, hex]

theorem countEvents_paidDelta_verified (tid : String) (req : ParsedRequest)
    (pw net : String) (o : Oracle) :
    countEvents (paidDelta tid req pw net o) "payment-verified" tid = 1 := by
  cases hex : o.exec <;> simp [paidDelta, countEvents, hex]

theorem countEvents_paidDelta_settled (tid : String) (req : ParsedRequest)
    (pw net : String) (o : Oracle) :
    countEvents (paidDelta tid req pw net o) "payment-settled" tid =
      (match o.exec with | .ok _ => 1 | .error _ => 0) := by
  cases hex : o.exec <;> simp [paidDelta, countEvents, hex]

/-- C2 amended: the code enforces no single-payment guard.  Every
`message/send` carrying the taskId of an existing task with status
`payment-submitted` runs the paid path again regardless of the task's
state: exactly one more `payment-received` and `payment-verified` event is
appended for that task, and one more `payment-settled` exactly when the
executor succeeds. -/
theorem c2_theorem (σ : ServerState) (hdr : Option String) (p : RpcParams)
    (m : Message) (o : Oracle) (tid txt : String) (t : Task)
    (hm : p.message = some m) (htxt : firstTextPart m.parts = some txt)
    (hst : m.metadata.paymentStatus = some "payment-submitted")
    (htid : m.taskId = some tid) (hne : tid ≠ "")
    (ht : getTask σ tid = some t) :
    countEvents ((handleMessageSend σ hdr (some p) o).1).paymentLog
        "payment-received" tid =
      countEvents σ.paymentLog "payment-received" tid + 1 ∧
    countEvents ((handleMessageSend σ hdr (some p) o).1).paymentLog
        "payment-verified" tid =
      countEvents σ.paymentLog "payment-verified" tid + 1 ∧
    countEvents ((handleMessageSend σ hdr (some p) o).1).paymentLog
        "payment-settled" tid =
      countEvents σ.paymentLog "payment-settled" tid +
        (match o.exec with | .ok _ => 1 | .error _ => 0) := by
  have hparts := parts_not_empty m txt htxt
  have hrej : (m.metadata.paymentStatus == some "payment-rejected") = false := by
    rw [hst]; rfl
  have hsub : (m.metadata.paymentStatus == some "payment-submitted") = true := by
    rw [hst]; rfl
  have htr : jsTruthy (some tid) = true := by
    simp [jsTruthy, hne]
  simp only [handleMessageSend, Option.some_bind, hm, hparts, Bool.false_eq_true,
             if_false, htxt, handleMessageBody, hrej, Bool.false_and,
             handleCorrelated, hsub, htr, Bool.true_and, Bool.and_self, if_true,
             htid, Option.getD_some, ht]
  rw [(handlePaidExecution_spec σ hdr tid _ _ _ m o).1]
  refine ⟨?_, ?_, ?_⟩ <;> rw [countEvents_append]
  · rw [countEvents_paidDelta_received]
  · rw [countEvents_paidDelta_verified]
  · rw [countEvents_paidDelta_settled]

/-- C2 witness: the counterexample trace through the amended theorem — the
resubmission for completed task `T1` appends one more received/verified
pair and one more settled event. -/
theorem c2_witness :
    countEvents ((handleMessageSend (run [paidScreenshotOp]) none
        (some resubmitParams) { oracleOk with freshTaskId := "T2" }).1).paymentLog
        "payment-received" "T1" =
      countEvents (run [paidScreenshotOp]).paymentLog "payment-received" "T1" + 1 ∧
    countEvents ((handleMessageSend (run [paidScreenshotOp]) none
        (some resubmitParams) { oracleOk with freshTaskId := "T2" }).1).paymentLog
        "payment-verified" "T1" =
      countEvents (run [paidScreenshotOp]).paymentLog "payment-verified" "T1" + 1 ∧
    countEvents ((handleMessageSend (run [paidScreenshotOp]) none
        (some resubmitParams) { oracleOk with freshTaskId := "T2" }).1).paymentLog
        "payment-settled" "T1" =
      countEvents (run [paidScreenshotOp]).paymentLog "payment-settled" "T1" +
        (match ({ oracleOk with freshTaskId := "T2" } : Oracle).exec with
         | .ok _ => 1 | .error _ => 0) :=
  c2_theorem (run [paidScreenshotOp]) none resubmitParams resubmitMsg
    { oracleOk with freshTaskId := "T2" } "T1" "https://example.com" _
    rfl rfl rfl rfl (by decide) rfl

/-! ## Claim C7 — extension-header echo -/

/-- C7 counterexample: a request naming the v0.1 URI that reaches the
payment-requirements path gets the v0.2 URI echoed back — the
payment-required response unconditionally overwrites the header, so "the
v0.1 URI when the client named v0.1 explicitly … on every response path"
is false. -/
theorem c7_counterexample :
    strIncludes uriV01 "x402" = true ∧
    (handleJsonRpc initState v01PayReqRequest oracleOk).2.header = some uriV02 ∧
    uriV02 ≠ uriV01 := by
  decide

theorem tasksGet_header (σ : ServerState) (hdr : Option String)
    (params : Option RpcParams) :
    (handleTasksGet σ hdr params).2.header = hdr := by
  unfold handleTasksGet
  split <;> rfl

theorem tasksCancel_header (σ : ServerState) (hdr : Option String)
    (params : Option RpcParams) (o : Oracle) :
    (handleTasksCancel σ hdr params o).2.header = hdr := by
  unfold handleTasksCancel
  split
  · rfl
  · split <;> rfl

theorem freeExec_header (σ : ServerState) (hdr : Option String) (tid ctx : String)
    (req : ParsedRequest) (m : Message) (o : Oracle) :
    ((handleFreeExecution σ hdr tid ctx req m o).2).header = hdr := by
  unfold handleFreeExecution
  cases hex : o.exec <;> simp [hex]

theorem paidExec_header (σ : ServerState) (hdr : Option String) (tid ctx : String)
    (req : ParsedRequest) (payload : Option PayArg) (m : Message) (o : Oracle) :
    ((handlePaidExecution σ hdr tid ctx req payload m o).2).header = hdr := by
  unfold handlePaidExecution
  cases hex : o.exec <;> simp [hex]

/-- The new-interaction tail keeps the computed echo on every path except
payment-required, which answers the payment-requirements task with the
v0.2 URI. -/
theorem echoOk_newMessage (σ : ServerState) (hdr : Option String) (m : Message)
    (txt : String) (params : Option RpcParams) (o : Oracle) :
    EchoOk hdr ((handleNewMessage σ hdr m txt params o).2) := by
  simp only [handleNewMessage]
  split
  · left; exact paidExec_header _ _ _ _ _ _ _ _
  · split
    · left; exact freeExec_header _ _ _ _ _ _ _
    · split
      · right
        refine ⟨rfl, _, rfl, ?_, ?_⟩ <;>
          simp [pushEvent_getTask, setTaskMeta_getTask_self,
                createTask_getTask_self]
      · left; exact freeExec_header _ _ _ _ _ _ _

theorem echoOk_correlated (σ : ServerState) (hdr : Option String) (m : Message)
    (txt : String) (params : Option RpcParams) (o : Oracle) :
    EchoOk hdr ((handleCorrelated σ hdr m txt params o).2) := by
  simp only [handleCorrelated]
  split
  · split
    · left; exact paidExec_header _ _ _ _ _ _ _ _
    · exact echoOk_newMessage _ _ _ _ _ _
  · exact echoOk_newMessage _ _ _ _ _ _

theorem echoOk_messageBody (σ : ServerState) (hdr : Option String) (m : Message)
    (txt : String) (params : Option RpcParams) (o : Oracle) :
    EchoOk hdr ((handleMessageBody σ hdr m txt params o).2) := by
  simp only [handleMessageBody]
  split
  · split
    · left; rfl
    · exact echoOk_correlated _ _ _ _ _ _
  · exact echoOk_correlated _ _ _ _ _ _

theorem echoOk_messageSend (σ : ServerState) (hdr : Option String)
    (params : Option RpcParams) (o : Oracle) :
    EchoOk hdr ((handleMessageSend σ hdr params o).2) := by
  simp only [handleMessageSend]
  split
  · left; rfl
  · split
    · left; rfl
    · split
      · left; rfl
      · exact echoOk_messageBody _ _ _ _ _ _

/-- C7 amended: on **every** JSON-RPC response path, the
`X-A2A-Extensions` response header either equals the echo rule's value
(the v0.1 URI when the client's header names it, else the v0.2 URI, and
absent when no recognised substring appears) — this covers `tasks/get`,
`tasks/cancel`, unknown methods, the `-32602` error paths, and the free,
paid and rejected `message/send` paths — or the response is the one that
carries the payment-requirements task, and then the header is always the
v0.2 URI, overwriting the v0.1 echo a v0.1-naming client was owed (see the
counterexample). -/
theorem c7_theorem (σ : ServerState) (req : RpcRequest) (o : Oracle)
    (hrpc : req.jsonrpc = "2.0") :
    (handleJsonRpc σ req o).2.header = echoHeader req.extHeader ∨
    ((handleJsonRpc σ req o).2.header = some uriV02 ∧
     PaymentRequiredResult (handleJsonRpc σ req o).2) := by
  have h : EchoOk (echoHeader req.extHeader) (handleJsonRpc σ req o).2 := by
    simp only [handleJsonRpc]
    rw [if_neg (by simp [hrpc])]
    split
    · exact echoOk_messageSend _ _ _ _
    · split
      · left; exact tasksGet_header _ _ _
      · split
        · left; exact tasksCancel_header _ _ _ _
        · left; rfl
  unfold EchoOk at h
  exact h

/-- C7 witness: the amended theorem at the concrete v0.1-naming
payment-requirements request of the counterexample. -/
theorem c7_witness :
    (handleJsonRpc initState v01PayReqRequest oracleOk).2.header =
        echoHeader v01PayReqRequest.extHeader ∨
    ((handleJsonRpc initState v01PayReqRequest oracleOk).2.header =
        some uriV02 ∧
     PaymentRequiredResult (handleJsonRpc initState v01PayReqRequest oracleOk).2) :=
  c7_theorem initState v01PayReqRequest oracleOk rfl

/-! ## Claim C8 — the request parser -/

/-- C8 counterexample: `"http pdf"` contains `pdf`, does not begin with an
HTTP(S) URL (no scheme separator), and triggers no rule-1 cue, yet the
parser classifies it `markdown-to-html` — the code tests the bare prefix
`http`, not a URL, so the claim's rule-2 description is false. -/
theorem c8_counterexample :
    aiCue (lowerL "http pdf".data) = false ∧
    listHasSub (lowerL "http pdf".data) "pdf".data = true ∧
    beginsWithHttpUrl "http pdf".data = false ∧
    (parseRequest "http pdf".data).skill = "markdown-to-html" ∧
    "markdown-to-html" ≠ "markdown-to-pdf" := by
  decide

theorem listStarts_nil_right (l : List Char) : listStarts l [] = true := by
  cases l <;> rfl

theorem listStarts_append_left (a b n : List Char)
    (h : listStarts a n = true) : listStarts (a ++ b) n = true := by
  induction n generalizing a with
  | nil => exact listStarts_nil_right _
  | cons d ds ih =>
    cases a with
    | nil => simp [listStarts] at h
    | cons c cs =>
      simp only [List.cons_append, listStarts, Bool.and_eq_true] at h ⊢
      exact ⟨h.1, ih cs h.2⟩

theorem listHasSub_nil_right (hay : List Char) : listHasSub hay [] = true := by
  cases hay <;> simp [listHasSub, listStarts]

theorem listHasSub_append_left (a b n : List Char)
    (h : listHasSub a n = true) : listHasSub (a ++ b) n = true := by
  induction a with
  | nil =>
    cases n with
    | nil => simpa using listHasSub_nil_right b
    | cons d ds => simp [listHasSub] at h
  | cons c cs ih =>
    simp only [listHasSub, Bool.or_eq_true] at h
    rcases h with h | h
    · simp only [List.cons_append, listHasSub, Bool.or_eq_true]
      left
      rw [← List.cons_append]
      exact listStarts_append_left _ _ _ h
    · simp only [List.cons_append, listHasSub, Bool.or_eq_true]
      right
      exact ih h

theorem regexCut_convertPdf (lb : List Char) :
    regexCut pdfToks (pdfPreLow ++ lb) = some (16 + wsRun lb) := by
  have h1 : findTok pdfToks (pdfPreLow ++ lb) = some (0, 7) := rfl
  have h2 : colonFrom ((pdfPreLow ++ lb).drop (0 + 7)) = some 7 := rfl
  have h3 : (pdfPreLow ++ lb).drop (0 + 7 + 7 + 1) = ' ' :: lb := rfl
  simp only [regexCut, h1, h2, h3]
  simp [wsRun, wsChar]
  omega

/-- The regex strip of the pdf rule on a text of the form
`"Convert to PDF: " ++ body`: when the body does not begin with further
whitespace, the preamble is removed and the remainder trimmed, falling back
to the whole text when that leaves nothing. -/
theorem stripCue_convertPdf (body : List Char) (hws : wsRun (lowerL body) = 0) :
    stripCue pdfToks (pdfPre ++ body) =
      (if (trimJS body).isEmpty then pdfPre ++ body else trimJS body) := by
  have hcut : regexCut pdfToks (lowerL (pdfPre ++ body)) =
      some (16 + wsRun (lowerL body)) := regexCut_convertPdf (lowerL body)
  have hdrop : (pdfPre ++ body).drop (16 + 0) = body := by
    rw [show (16 + 0) = pdfPre.length from rfl]
    exact List.drop_left _ _
  simp only [stripCue, hcut, hws, hdrop]

/-- C8 amended: (1) every text containing a rule-1 cue parses as
`ai-analysis`; (2) otherwise every text containing `pdf` whose lowercasing
does not begin with the four characters `http` (the code's test — not
"does not begin with an HTTP(S) URL" as claimed) parses as
`markdown-to-pdf`; (3) a canonical preamble `"Convert to PDF: " ++ body`
(body not starting with whitespace) parses as `markdown-to-pdf` with the
preamble stripped and the body trimmed, the whole text standing in when the
body trims to nothing. -/
theorem c8_theorem :
    (∀ t : List Char, aiCue (lowerL t) = true →
       (parseRequest t).skill = "ai-analysis") ∧
    (∀ t : List Char, aiCue (lowerL t) = false →
       listHasSub (lowerL t) "pdf".data = true →
       listStarts (lowerL t) "http".data = false →
       (parseRequest t).skill = "markdown-to-pdf") ∧
    (∀ body : List Char,
       aiCue (lowerL (pdfPre ++ body)) = false →
       wsRun (lowerL body) = 0 →
       parseRequest (pdfPre ++ body) =
         { skill := "markdown-to-pdf",
           markdown := some ⟨if (trimJS body).isEmpty
             then pdfPre ++ body else trimJS body⟩ }) := by
  refine ⟨?_, ?_, ?_⟩
  · intro t h
    simp [parseRequest, h]
  · intro t h1 h2 h3
    simp [parseRequest, h1, h2, h3]
  · intro body h1 hws
    have hlow : lowerL (pdfPre ++ body) = pdfPreLow ++ lowerL body := rfl
    have hpdf : listHasSub (lowerL (pdfPre ++ body)) "pdf".data = true := by
      rw [hlow]
      exact listHasSub_append_left _ _ _ (by decide)
    have hhttp : listStarts (lowerL (pdfPre ++ body)) "http".data = false := by
      rw [hlow]; rfl
    simp [parseRequest, h1, hpdf, hhttp, stripCue_convertPdf body hws]

/-- C8 witness: the three parts of the amended theorem on concrete texts:
an `analyze` request, a plain pdf request, and the canonical
"Convert to PDF:" preamble. -/
theorem c8_witness :
    (parseRequest "Analyze: the future".data).skill = "ai-analysis" ∧
    (parseRequest "markdown pdf please".data).skill = "markdown-to-pdf" ∧
    parseRequest (pdfPre ++ "# Hello".data) =
      { skill := "markdown-to-pdf",
        markdown := some ⟨if (trimJS "# Hello".data).isEmpty
          then pdfPre ++ "# Hello".data
          else trimJS "# Hello".data⟩ } :=
  ⟨c8_theorem.1 "Analyze: the future".data (by decide),
   c8_theorem.2.1 "markdown pdf please".data (by decide) (by decide) (by decide),
   c8_theorem.2.2 "# Hello".data (by decide) (by decide)⟩

end X402
